import Mathlib

/-!
Shallow embedding of the TerraPen motion-control core and proofs about it.

The definitions below are translated from the firmware sources:
`StepperDriver` from `nano-firmware/src/hardware/StepperDriver.cpp`,
`ServoDriver` from `src/hardware/ServoDriver.cpp`, and the coordinator
`Robot` from `nano-firmware/src/robot/TerraPenRobot.cpp`.  Floating-point
arithmetic is embedded as exact rational arithmetic (`ℚ`); the libm calls
(`sin`, `cos`, `sqrt`, `atan2`) the code makes are kept abstract as fields
of a `FloatOps` record; machine timestamps (`micros()` / `millis()`) are
passed in as explicit `ℕ` parameters, one reading per tick.
-/

/-- Arduino's `PI` literal, used by the source for circumference and for the
angle-normalization loops. -/
def piQ : ℚ := 3.1415926535897932384626433832795

/-- C's `round` (round half away from zero) followed by the cast to `int`. -/
def cround (q : ℚ) : ℤ := if 0 ≤ q then ⌊q + 1/2⌋ else ⌈q - 1/2⌉

/-- C cast of a floating value to an integer type: truncation toward zero. -/
def ctrunc (q : ℚ) : ℤ := if 0 ≤ q then ⌊q⌋ else ⌈q⌉

/-- C unsigned 32-bit subtraction `a - b` (the wrap-around difference the
source relies on for `millis()`/`micros()` arithmetic). -/
def usub32 (a b : ℕ) : ℕ := (((a : ℤ) - (b : ℤ)).emod (2 ^ 32)).toNat

/-- The loop `while (angle > PI) angle -= 2 * PI;` used throughout
`TerraPenRobot.cpp`. -/
def normUp (a : ℚ) : ℚ :=
  if h : piQ < a then normUp (a - 2 * piQ) else a
termination_by (⌈(a - piQ) / (2 * piQ)⌉).toNat
decreasing_by
  have hpi : (0:ℚ) < piQ := by norm_num [piQ]
  have h2 : (0:ℚ) < 2 * piQ := by linarith
  have heq : (a - 2 * piQ - piQ) / (2 * piQ) = (a - piQ) / (2 * piQ) - 1 := by
    field_simp; ring
  have hpos : 0 < ⌈(a - piQ) / (2 * piQ)⌉ :=
    Int.ceil_pos.mpr (div_pos (by linarith) h2)
  rw [heq, Int.ceil_sub_one]
  omega

/-- The loop `while (angle < -PI) angle += 2 * PI;` used throughout
`TerraPenRobot.cpp`. -/
def normDown (a : ℚ) : ℚ :=
  if h : a < -piQ then normDown (a + 2 * piQ) else a
termination_by (⌈(-piQ - a) / (2 * piQ)⌉).toNat
decreasing_by
  have hpi : (0:ℚ) < piQ := by norm_num [piQ]
  have h2 : (0:ℚ) < 2 * piQ := by linarith
  have heq : (-piQ - (a + 2 * piQ)) / (2 * piQ) = (-piQ - a) / (2 * piQ) - 1 := by
    field_simp; ring
  have hpos : 0 < ⌈(-piQ - a) / (2 * piQ)⌉ :=
    Int.ceil_pos.mpr (div_pos (by linarith) h2)
  rw [heq, Int.ceil_sub_one]
  omega

/-- The two sequential normalization loops of the source (`angle -= 2*PI`
while above `PI`, then `angle += 2*PI` while below `-PI`). -/
def normalizeAngle (a : ℚ) : ℚ := normDown (normUp a)

/-- The 28BYJ-48 half-step excitation table (`PHASE_SEQUENCE` of
`StepperDriver.cpp`), one row of four coil levels per phase. -/
def PHASE_SEQUENCE : List (List Bool) :=
  [[true,  false, false, false],
   [true,  true,  false, false],
   [false, true,  false, false],
   [false, true,  true,  false],
   [false, false, true,  false],
   [false, false, true,  true ],
   [false, false, false, true ],
   [true,  false, false, true ]]

/-- One stepper channel.  `pins` holds the output levels currently driven on
the four coil pins (`true` = HIGH); the remaining fields mirror the data
members of `StepperDriver`. -/
structure StepperDriver where
  pins : List Bool
  current_phase : ℤ
  last_step_us : ℕ
  step_interval_us : ℕ
  initialized : Bool
  motor_enabled : Bool
deriving DecidableEq

/-- The default constructor `StepperDriver::StepperDriver()` (pins are not
yet driven; we model undriven outputs as LOW). -/
def StepperDriver.new : StepperDriver :=
  { pins := [false, false, false, false]
    current_phase := 0
    last_step_us := 0
    step_interval_us := 10000
    initialized := false
    motor_enabled := false }

/-- `StepperDriver::clearPins`. -/
def StepperDriver.clearPins (m : StepperDriver) : StepperDriver :=
  if m.initialized then { m with pins := [false, false, false, false] } else m

/-- `StepperDriver::applyPhase`: drive the pattern of the current phase, or
all-low when not initialized or not enabled.  Indexing of the phase table is
total here via `emod 8`; on the reachable range `[0, 8)` this agrees with
the source's direct array indexing. -/
def StepperDriver.applyPhase (m : StepperDriver) : StepperDriver :=
  if !m.initialized || !m.motor_enabled then m.clearPins
  else { m with pins := PHASE_SEQUENCE.getD (m.current_phase.emod 8).toNat [] }

/-- `StepperDriver::updatePhase`.  C's `%` agrees with `Int.emod` here
because the dividend is non-negative for every reachable phase. -/
def StepperDriver.updatePhase (direction : ℤ) (m : StepperDriver) : StepperDriver :=
  if 0 < direction then { m with current_phase := (m.current_phase + 1).emod 8 }
  else if direction < 0 then { m with current_phase := (m.current_phase - 1 + 8).emod 8 }
  else m

/-- `StepperDriver::begin` (the four `digitalWrite(..., LOW)` calls, state
initialization, and the trailing `clearPins`). -/
def StepperDriver.begin (now_us : ℕ) (m : StepperDriver) : StepperDriver :=
  { m with pins := [false, false, false, false]
           current_phase := 0
           last_step_us := now_us
           motor_enabled := false
           initialized := true }

/-- `StepperDriver::setSpeed`. -/
def StepperDriver.setSpeed (steps_per_sec : ℚ) (m : StepperDriver) : StepperDriver :=
  if steps_per_sec ≤ 0 then { m with step_interval_us := 1000000 }
  else
    let t : ℕ := (ctrunc (1000000 / steps_per_sec)).toNat
    let t1 : ℕ := if t < 1000 then 1000 else t
    let t2 : ℕ := if 1000000 < t1 then 1000000 else t1
    { m with step_interval_us := t2 }

/-- `StepperDriver::isReady`, with `now_us` the value `micros()` returns in
this tick. -/
def StepperDriver.isReady (now_us : ℕ) (m : StepperDriver) : Bool :=
  if !m.initialized then false
  else if now_us < m.last_step_us then true
  else decide (m.step_interval_us ≤ now_us - m.last_step_us)

/-- `StepperDriver::stepForward`.  Note the source calls `applyPhase()`
before it sets `motor_enabled = true`. -/
def StepperDriver.stepForward (now_us : ℕ) (m : StepperDriver) : Bool × StepperDriver :=
  if !m.initialized then (false, m)
  else if !(m.isReady now_us) then (false, m)
  else
    let m1 := (m.updatePhase 1).applyPhase
    (true, { m1 with motor_enabled := true, last_step_us := now_us })

/-- `StepperDriver::stepBackward`. -/
def StepperDriver.stepBackward (now_us : ℕ) (m : StepperDriver) : Bool × StepperDriver :=
  if !m.initialized then (false, m)
  else if !(m.isReady now_us) then (false, m)
  else
    let m1 := (m.updatePhase (-1)).applyPhase
    (true, { m1 with motor_enabled := true, last_step_us := now_us })

/-- `StepperDriver::hold`. -/
def StepperDriver.hold (m : StepperDriver) : StepperDriver :=
  if !m.initialized then m else ({ m with motor_enabled := true }).applyPhase

/-- `StepperDriver::release`. -/
def StepperDriver.release (m : StepperDriver) : StepperDriver :=
  if !m.initialized then m else ({ m with motor_enabled := false }).clearPins

/-- One servo channel, mirroring the data members of `ServoDriver`. -/
structure ServoDriver where
  current_angle : ℤ
  target_angle : ℤ
  start_angle : ℤ
  move_start_time : ℕ
  move_duration : ℕ
  is_moving : Bool
  initialized : Bool
deriving DecidableEq

/-- `ServoDriver::constrainAngle` (`MIN_ANGLE = 0`, `MAX_ANGLE = 180`). -/
def constrainAngle (angle : ℤ) : ℤ :=
  if angle < 0 then 0 else if 180 < angle then 180 else angle

/-- The default constructor `ServoDriver::ServoDriver()` (`DEFAULT_ANGLE = 90`). -/
def ServoDriver.new : ServoDriver :=
  { current_angle := 90, target_angle := 90, start_angle := 90
    move_start_time := 0, move_duration := 0
    is_moving := false, initialized := false }

/-- `ServoDriver::begin` (the attach / write side effects have no modelled
state; the delays are timing-only). -/
def ServoDriver.begin (initial_angle : ℤ) (s : ServoDriver) : ServoDriver :=
  let a := constrainAngle initial_angle
  { s with current_angle := a, target_angle := a, start_angle := a
           is_moving := false, initialized := true }

/-- `ServoDriver::setAngle`. -/
def ServoDriver.setAngle (degrees : ℤ) (s : ServoDriver) : ServoDriver :=
  if !s.initialized then s
  else
    let d := constrainAngle degrees
    { s with is_moving := false, current_angle := d, target_angle := d }

/-- `ServoDriver::sweepTo`, with `now_ms` the value `millis()` returns. -/
def ServoDriver.sweepTo (now_ms : ℕ) (degrees : ℤ) (duration_ms : ℕ)
    (s : ServoDriver) : ServoDriver :=
  if !s.initialized then s
  else
    let d := constrainAngle degrees
    if d = s.current_angle then { s with is_moving := false, target_angle := d }
    else
      let s1 := { s with start_angle := s.current_angle, target_angle := d
                         move_start_time := now_ms, move_duration := duration_ms
                         is_moving := true }
      if s1.move_duration < 10 then { s1 with move_duration := 10 } else s1

/-- `ServoDriver::getProgress` (the `millis() - move_start_time` difference
is unsigned 32-bit arithmetic). -/
def ServoDriver.getProgress (now_ms : ℕ) (s : ServoDriver) : ℚ :=
  if !s.is_moving || s.move_duration = 0 then 1
  else
    let p : ℚ := (usub32 now_ms s.move_start_time : ℚ) / (s.move_duration : ℚ)
    let p1 := if 1 < p then 1 else p
    if p1 < 0 then 0 else p1

/-- `ServoDriver::interpolateAngle`: linear interpolation, then
`(int)(interpolated + 0.5)`. -/
def ServoDriver.interpolateAngle (progress : ℚ) (s : ServoDriver) : ℤ :=
  ctrunc ((s.start_angle : ℚ) + ((s.target_angle : ℚ) - (s.start_angle : ℚ)) * progress + 1/2)

/-- `ServoDriver::stop`. -/
def ServoDriver.stop (s : ServoDriver) : ServoDriver :=
  if !s.initialized then s
  else { s with is_moving := false, target_angle := s.current_angle }

/-- `ServoDriver::update`. -/
def ServoDriver.update (now_ms : ℕ) (s : ServoDriver) : ServoDriver :=
  if !s.initialized || !s.is_moving then s
  else
    let progress := s.getProgress now_ms
    if 1 ≤ progress then
      { s with current_angle := s.target_angle, is_moving := false }
    else
      let new_angle := s.interpolateAngle progress
      if new_angle ≠ s.current_angle then { s with current_angle := new_angle } else s

/-- The fields of `HardwareConfig` (in `TerraPenConfig.h`) that the motion
core reads, with their default values in `defaultHardware` below. -/
structure HardwareConfig where
  servo_pen_up_angle : ℤ
  servo_pen_down_angle : ℤ
  wheel_diameter_mm : ℚ
  wheelbase_mm : ℚ
  steps_per_revolution : ℕ
  step_delay_us : ℕ
  min_step_delay_us : ℕ
  max_step_delay_us : ℕ
  workspace_min_x : ℚ
  workspace_max_x : ℚ
  workspace_min_y : ℚ
  workspace_max_y : ℚ
deriving DecidableEq

/-- The default member values of `HardwareConfig`. -/
def defaultHardware : HardwareConfig :=
  { servo_pen_up_angle := 90, servo_pen_down_angle := 45
    wheel_diameter_mm := 25, wheelbase_mm := 30, steps_per_revolution := 2048
    step_delay_us := 1000, min_step_delay_us := 600, max_step_delay_us := 10000
    workspace_min_x := -100, workspace_max_x := 100
    workspace_min_y := -100, workspace_max_y := 100 }

/-- The libm functions the coordinator calls, kept abstract: every theorem
below holds for an arbitrary implementation of them. -/
structure FloatOps where
  sin : ℚ → ℚ
  cos : ℚ → ℚ
  sqrt : ℚ → ℚ
  atan2 : ℚ → ℚ → ℚ

/-- `RobotState` of `TerraPenRobot.h`. -/
inductive RobotState where
  | IDLE
  | MOVING
  | ERROR
  | EMERGENCY_STOP
deriving DecidableEq

/-- The coordinator state: the data members of `TerraPenRobot`, plus the two
function-local `static long` baselines of `updatePositionEstimate`. -/
structure Robot where
  left_motor : StepperDriver
  right_motor : StepperDriver
  pen_servo : ServoDriver
  state : RobotState
  pen_is_down : Bool
  current_x : ℚ
  current_y : ℚ
  current_angle : ℚ
  target_left_steps : ℤ
  target_right_steps : ℤ
  current_left_steps : ℤ
  current_right_steps : ℤ
  movement_active : Bool
  target_x : ℚ
  target_y : ℚ
  coordinate_movement : Bool
  movement_speed_mms : ℚ
  left_steps_total : ℤ
  right_steps_total : ℤ
  last_left_steps : ℤ
  last_right_steps : ℤ
deriving DecidableEq

/-- `TerraPenRobot::isBusy`. -/
def Robot.isBusy (r : Robot) : Bool :=
  decide (r.state = RobotState.MOVING) || decide (r.state = RobotState.ERROR) ||
    decide (r.state = RobotState.EMERGENCY_STOP)

/-- `TerraPenRobot::isValidPosition` (reads only the workspace bounds). -/
def isValidPosition (cfg : HardwareConfig) (x y : ℚ) : Bool :=
  decide (cfg.workspace_min_x ≤ x) && decide (x ≤ cfg.workspace_max_x) &&
    decide (cfg.workspace_min_y ≤ y) && decide (y ≤ cfg.workspace_max_y)

/-- `TerraPenRobot::calculateSteps` (inverse kinematics: desired motion to
integer per-wheel steps). -/
def calculateSteps (cfg : HardwareConfig) (distance_mm angle_diff : ℚ) : ℤ × ℤ :=
  let wheel_circumference := piQ * cfg.wheel_diameter_mm
  let arc_length := angle_diff * cfg.wheelbase_mm / 2
  let left_distance := distance_mm - arc_length
  let right_distance := distance_mm + arc_length
  (cround (left_distance / wheel_circumference * (cfg.steps_per_revolution : ℚ)),
   cround (right_distance / wheel_circumference * (cfg.steps_per_revolution : ℚ)))

/-- `TerraPenRobot::stepsToMovement` (forward kinematics: signed steps to
distance and angle change). -/
def stepsToMovement (cfg : HardwareConfig) (left_steps right_steps : ℤ) : ℚ × ℚ :=
  let wheel_circumference := piQ * cfg.wheel_diameter_mm
  let left_distance := (left_steps : ℚ) / (cfg.steps_per_revolution : ℚ) * wheel_circumference
  let right_distance := (right_steps : ℚ) / (cfg.steps_per_revolution : ℚ) * wheel_circumference
  ((left_distance + right_distance) / 2,
   (right_distance - left_distance) / cfg.wheelbase_mm)

/-- The derived constant `mm_per_step = π · wheel_diameter / steps_per_rev`
of the spec (§3), used to state the kinematics claims. -/
def mmPerStep (cfg : HardwareConfig) : ℚ :=
  piQ * cfg.wheel_diameter_mm / (cfg.steps_per_revolution : ℚ)

/-- `TerraPenRobot::penUp`. -/
def Robot.penUp (cfg : HardwareConfig) (r : Robot) : Robot :=
  { r with pen_servo := r.pen_servo.setAngle cfg.servo_pen_up_angle, pen_is_down := false }

/-- `TerraPenRobot::penDown`. -/
def Robot.penDown (cfg : HardwareConfig) (r : Robot) : Robot :=
  { r with pen_servo := r.pen_servo.setAngle cfg.servo_pen_down_angle, pen_is_down := true }

/-- The zero-initialized state of the global robot object at program start
(before `begin()`): default-constructed members, `static` baselines zero. -/
def Robot.start : Robot :=
  { left_motor := StepperDriver.new, right_motor := StepperDriver.new
    pen_servo := ServoDriver.new
    state := RobotState.IDLE, pen_is_down := false
    current_x := 0, current_y := 0, current_angle := 0
    target_left_steps := 0, target_right_steps := 0
    current_left_steps := 0, current_right_steps := 0
    movement_active := false
    target_x := 0, target_y := 0
    coordinate_movement := false, movement_speed_mms := 15
    left_steps_total := 0, right_steps_total := 0
    last_left_steps := 0, last_right_steps := 0 }

/-- `TerraPenRobot::begin`. -/
def Robot.begin (cfg : HardwareConfig) (now_us : ℕ) (r : Robot) : Robot :=
  let speed_sps : ℚ := 1000000 / (cfg.step_delay_us : ℚ)
  let r1 := { r with
    left_motor := (r.left_motor.begin now_us).setSpeed speed_sps
    right_motor := (r.right_motor.begin now_us).setSpeed speed_sps
    pen_servo := r.pen_servo.begin 90
    state := RobotState.IDLE, pen_is_down := false, movement_active := false
    current_x := 0, current_y := 0, current_angle := 0
    coordinate_movement := false, movement_speed_mms := 15
    target_x := 0, target_y := 0
    target_left_steps := 0, target_right_steps := 0
    current_left_steps := 0, current_right_steps := 0
    left_steps_total := 0, right_steps_total := 0 }
  { r1 with pen_servo := r1.pen_servo.setAngle cfg.servo_pen_up_angle }

/-- `TerraPenRobot::moveForward`. -/
def Robot.moveForward (steps : ℤ) (r : Robot) : Bool × Robot :=
  if r.isBusy || steps ≤ 0 then (false, r)
  else
    (true, { r with target_left_steps := steps, target_right_steps := steps
                    current_left_steps := 0, current_right_steps := 0
                    movement_active := true, coordinate_movement := false
                    state := RobotState.MOVING })

/-- `TerraPenRobot::moveBackward`. -/
def Robot.moveBackward (steps : ℤ) (r : Robot) : Bool × Robot :=
  if r.isBusy || steps ≤ 0 then (false, r)
  else
    (true, { r with target_left_steps := -steps, target_right_steps := -steps
                    current_left_steps := 0, current_right_steps := 0
                    movement_active := true, coordinate_movement := false
                    state := RobotState.MOVING })

/-- `TerraPenRobot::turnLeft`. -/
def Robot.turnLeft (steps : ℤ) (r : Robot) : Bool × Robot :=
  if r.isBusy || steps ≤ 0 then (false, r)
  else
    (true, { r with target_left_steps := -steps, target_right_steps := steps
                    current_left_steps := 0, current_right_steps := 0
                    movement_active := true, coordinate_movement := false
                    state := RobotState.MOVING })

/-- `TerraPenRobot::turnRight`. -/
def Robot.turnRight (steps : ℤ) (r : Robot) : Bool × Robot :=
  if r.isBusy || steps ≤ 0 then (false, r)
  else
    (true, { r with target_left_steps := steps, target_right_steps := -steps
                    current_left_steps := 0, current_right_steps := 0
                    movement_active := true, coordinate_movement := false
                    state := RobotState.MOVING })

/-- `TerraPenRobot::moveTo`. -/
def Robot.moveTo (cfg : HardwareConfig) (x y speed_mms : ℚ) (r : Robot) : Bool × Robot :=
  if r.isBusy || !(isValidPosition cfg x y) || speed_mms ≤ 0 then (false, r)
  else
    let r1 := r.penUp cfg
    (true, { r1 with target_x := x, target_y := y, movement_speed_mms := speed_mms
                     coordinate_movement := true, movement_active := true
                     state := RobotState.MOVING })

/-- `TerraPenRobot::drawTo`. -/
def Robot.drawTo (cfg : HardwareConfig) (x y speed_mms : ℚ) (r : Robot) : Bool × Robot :=
  if r.isBusy || !(isValidPosition cfg x y) || speed_mms ≤ 0 then (false, r)
  else
    let r1 := r.penDown cfg
    (true, { r1 with target_x := x, target_y := y, movement_speed_mms := speed_mms
                     coordinate_movement := true, movement_active := true
                     state := RobotState.MOVING })

/-- `TerraPenRobot::turnBy`. -/
def Robot.turnBy (cfg : HardwareConfig) (delta_angle speed_rad_s : ℚ) (r : Robot) : Bool × Robot :=
  if r.isBusy || speed_rad_s ≤ 0 then (false, r)
  else
    let s := calculateSteps cfg 0 delta_angle
    (true, { r with target_left_steps := s.1, target_right_steps := s.2
                    current_left_steps := 0, current_right_steps := 0
                    movement_active := true, coordinate_movement := false
                    state := RobotState.MOVING })

/-- `TerraPenRobot::turnTo` (normalizes `target - current` with the same two
loops, then delegates to `turnBy`). -/
def Robot.turnTo (cfg : HardwareConfig) (angle_radians speed_rad_s : ℚ) (r : Robot) : Bool × Robot :=
  if r.isBusy || speed_rad_s ≤ 0 then (false, r)
  else r.turnBy cfg (normalizeAngle (angle_radians - r.current_angle)) speed_rad_s

/-- `TerraPenRobot::stopAllMotors`. -/
def Robot.stopAllMotors (r : Robot) : Robot :=
  { r with left_motor := r.left_motor.release, right_motor := r.right_motor.release }

/-- `TerraPenRobot::emergencyStop`. -/
def Robot.emergencyStop (r : Robot) : Robot :=
  { r.stopAllMotors with movement_active := false, state := RobotState.EMERGENCY_STOP }

/-- `TerraPenRobot::clearError`. -/
def Robot.clearError (r : Robot) : Robot :=
  if r.state = RobotState.ERROR ∨ r.state = RobotState.EMERGENCY_STOP then
    { r.stopAllMotors with movement_active := false, state := RobotState.IDLE }
  else r

/-- `TerraPenRobot::resetStepCounts`. -/
def Robot.resetStepCounts (r : Robot) : Robot :=
  { r with left_steps_total := 0, right_steps_total := 0 }

/-- `TerraPenRobot::resetPosition`. -/
def Robot.resetPosition (x y angle : ℚ) (r : Robot) : Robot :=
  let r1 := { r with current_x := x, current_y := y
                     current_angle := normalizeAngle angle }
  r1.resetStepCounts

/-- `TerraPenRobot::isMovementComplete`. -/
def Robot.isMovementComplete (r : Robot) : Bool :=
  decide (r.current_left_steps = r.target_left_steps) &&
    decide (r.current_right_steps = r.target_right_steps)

/-- `TerraPenRobot::isAtTargetPosition`. -/
def Robot.isAtTargetPosition (ops : FloatOps) (r : Robot) : Bool :=
  let dx := r.target_x - r.current_x
  let dy := r.target_y - r.current_y
  decide (ops.sqrt (dx * dx + dy * dy) < 1/2)

/-- The left-motor half of `TerraPenRobot::executeMovement`. -/
def Robot.stepLeft (now_us : ℕ) (r : Robot) : Robot :=
  if r.current_left_steps ≠ r.target_left_steps ∧ r.left_motor.isReady now_us then
    if 0 < r.target_left_steps then
      if r.current_left_steps < r.target_left_steps then
        let s := r.left_motor.stepForward now_us
        if s.1 then
          { r with left_motor := s.2, current_left_steps := r.current_left_steps + 1
                   left_steps_total := r.left_steps_total + 1 }
        else { r with left_motor := s.2 }
      else r
    else
      if r.target_left_steps < r.current_left_steps then
        let s := r.left_motor.stepBackward now_us
        if s.1 then
          { r with left_motor := s.2, current_left_steps := r.current_left_steps - 1
                   left_steps_total := r.left_steps_total - 1 }
        else { r with left_motor := s.2 }
      else r
  else r

/-- The right-motor half of `TerraPenRobot::executeMovement`. -/
def Robot.stepRight (now_us : ℕ) (r : Robot) : Robot :=
  if r.current_right_steps ≠ r.target_right_steps ∧ r.right_motor.isReady now_us then
    if 0 < r.target_right_steps then
      if r.current_right_steps < r.target_right_steps then
        let s := r.right_motor.stepForward now_us
        if s.1 then
          { r with right_motor := s.2, current_right_steps := r.current_right_steps + 1
                   right_steps_total := r.right_steps_total + 1 }
        else { r with right_motor := s.2 }
      else r
    else
      if r.target_right_steps < r.current_right_steps then
        let s := r.right_motor.stepBackward now_us
        if s.1 then
          { r with right_motor := s.2, current_right_steps := r.current_right_steps - 1
                   right_steps_total := r.right_steps_total - 1 }
        else { r with right_motor := s.2 }
      else r
  else r

/-- `TerraPenRobot::executeMovement`: at most one step per channel, left
then right. -/
def Robot.executeMovement (now_us : ℕ) (r : Robot) : Robot :=
  (r.stepLeft now_us).stepRight now_us

/-- `TerraPenRobot::updatePositionEstimate` (including the two `static long`
baselines, modelled as the `last_left_steps` / `last_right_steps` fields). -/
def Robot.updatePositionEstimate (ops : FloatOps) (cfg : HardwareConfig) (r : Robot) : Robot :=
  let delta_left := r.left_steps_total - r.last_left_steps
  let delta_right := r.right_steps_total - r.last_right_steps
  if delta_left ≠ 0 ∨ delta_right ≠ 0 then
    let m := stepsToMovement cfg delta_left delta_right
    { r with current_x := r.current_x + m.1 * ops.sin r.current_angle
             current_y := r.current_y + m.1 * ops.cos r.current_angle
             current_angle := normalizeAngle (r.current_angle + m.2)
             last_left_steps := r.left_steps_total
             last_right_steps := r.right_steps_total }
  else r

/-- `TerraPenRobot::executeCoordinateMovement`. -/
def Robot.executeCoordinateMovement (ops : FloatOps) (cfg : HardwareConfig) (now_us : ℕ)
    (r : Robot) : Robot :=
  let dx := r.target_x - r.current_x
  let dy := r.target_y - r.current_y
  let distance_to_target := ops.sqrt (dx * dx + dy * dy)
  if distance_to_target < 1/2 then r
  else
    let required_angle := ops.atan2 dx dy
    let angle_diff := normalizeAngle (required_angle - r.current_angle)
    if 87/1000 < |angle_diff| then
      let s := calculateSteps cfg 0 angle_diff
      Robot.executeMovement now_us
        { r with target_left_steps := s.1, target_right_steps := s.2
                 current_left_steps := 0, current_right_steps := 0 }
    else
      let step_distance := min distance_to_target 1
      let s := calculateSteps cfg step_distance 0
      Robot.executeMovement now_us
        { r with target_left_steps := s.1, target_right_steps := s.2
                 current_left_steps := 0, current_right_steps := 0 }

/-- `TerraPenRobot::update`: servo tick, then goal execution with the
completion check, then the dead-reckoning pose update. -/
def Robot.update (ops : FloatOps) (cfg : HardwareConfig) (now_us now_ms : ℕ)
    (r : Robot) : Robot :=
  let r0 := { r with pen_servo := r.pen_servo.update now_ms }
  let r1 :=
    if r0.movement_active ∧ r0.state = RobotState.MOVING then
      let r2 :=
        if r0.coordinate_movement then r0.executeCoordinateMovement ops cfg now_us
        else r0.executeMovement now_us
      if (r2.coordinate_movement ∧ r2.isAtTargetPosition ops) ∨
          (¬r2.coordinate_movement ∧ r2.isMovementComplete) then
        { r2 with movement_active := false, coordinate_movement := false
                  state := RobotState.IDLE }
      else r2
    else r0
  r1.updatePositionEstimate ops cfg

/-- The external command alphabet of the coordinator (spec §4.4) together
with the cooperative tick, each tick carrying the clock readings
(`micros()`, `millis()`) it observes. -/
inductive Cmd where
  | tick (now_us now_ms : ℕ)
  | moveForward (n : ℤ)
  | moveBackward (n : ℤ)
  | turnLeft (n : ℤ)
  | turnRight (n : ℤ)
  | moveTo (x y v : ℚ)
  | drawTo (x y v : ℚ)
  | turnTo (a w : ℚ)
  | turnBy (a w : ℚ)
  | penUp
  | penDown
  | emergencyStop
  | clearError
deriving DecidableEq

/-- Run one command (or tick) against the coordinator, discarding the
boolean acceptance result. -/
def applyCmd (ops : FloatOps) (cfg : HardwareConfig) (c : Cmd) (r : Robot) : Robot :=
  match c with
  | Cmd.tick now_us now_ms => r.update ops cfg now_us now_ms
  | Cmd.moveForward n => (r.moveForward n).2
  | Cmd.moveBackward n => (r.moveBackward n).2
  | Cmd.turnLeft n => (r.turnLeft n).2
  | Cmd.turnRight n => (r.turnRight n).2
  | Cmd.moveTo x y v => (r.moveTo cfg x y v).2
  | Cmd.drawTo x y v => (r.drawTo cfg x y v).2
  | Cmd.turnTo a w => (r.turnTo cfg a w).2
  | Cmd.turnBy a w => (r.turnBy cfg a w).2
  | Cmd.penUp => r.penUp cfg
  | Cmd.penDown => r.penDown cfg
  | Cmd.emergencyStop => r.emergencyStop
  | Cmd.clearError => r.clearError

/-- Run a sequence of commands and ticks, left to right. -/
def applyCmds (ops : FloatOps) (cfg : HardwareConfig) (cs : List Cmd) (r : Robot) : Robot :=
  cs.foldl (fun r c => applyCmd ops cfg c r) r

/-- A concrete (arbitrary) instantiation of the abstract libm functions,
used to evaluate the model on closed inputs. -/
def constOps : FloatOps :=
  { sin := fun _ => 0, cos := fun _ => 0, sqrt := fun _ => 0, atan2 := fun _ _ => 0 }

/-- The interval formula of claim C6 taken literally, clamped between the
CONFIGURED hardware limits `min_step_delay_us` / `max_step_delay_us` of
`TerraPenConfig.h`. -/
def setSpeedIntervalClaim (cfg : HardwareConfig) (steps_per_second : ℚ) : ℚ :=
  max (cfg.min_step_delay_us : ℚ)
    (min (cfg.max_step_delay_us : ℚ) (1000000 / steps_per_second))

/-- The servo-channel invariant of claim C9: angles within `[0, 180]` and,
when no sweep is running, current equals target. -/
def ServoInv (s : ServoDriver) : Prop :=
  0 ≤ s.current_angle ∧ s.current_angle ≤ 180 ∧
  0 ≤ s.target_angle ∧ s.target_angle ≤ 180 ∧
  0 ≤ s.start_angle ∧ s.start_angle ≤ 180 ∧
  (s.is_moving = false → s.current_angle = s.target_angle)

/-- The servo operations quantified over in claim C9, with the clock reading
each timed operation observes. -/
inductive SCmd where
  | setAngle (a : ℤ)
  | sweepTo (now_ms : ℕ) (a : ℤ) (d : ℕ)
  | update (now_ms : ℕ)
  | stop
deriving DecidableEq

/-- Run one servo operation. -/
def applySCmd (c : SCmd) (s : ServoDriver) : ServoDriver :=
  match c with
  | SCmd.setAngle a => s.setAngle a
  | SCmd.sweepTo now_ms a d => s.sweepTo now_ms a d
  | SCmd.update now_ms => s.update now_ms
  | SCmd.stop => s.stop

/-- Run a sequence of servo operations, left to right. -/
def applySCmds (cs : List SCmd) (s : ServoDriver) : ServoDriver :=
  cs.foldl (fun s c => applySCmd c s) s

/-- A channel whose coils are released: if it is attached, the energized
flag is clear and all four pins are LOW. -/
def Released (m : StepperDriver) : Prop :=
  m.initialized = true → m.motor_enabled = false ∧ m.pins = [false, false, false, false]

/-- The latched emergency-stop configuration of the coordinator. -/
def Estopped (r : Robot) : Prop :=
  r.state = RobotState.EMERGENCY_STOP ∧ r.movement_active = false ∧
    Released r.left_motor ∧ Released r.right_motor

/-- In every IDLE state the goal is inactive. -/
def IdleInv (r : Robot) : Prop :=
  r.state = RobotState.IDLE → r.movement_active = false

/-- The step-mode invariant: no coordinate goal is recorded, and IDLE
implies both channels completed their targets with no active movement. -/
def StepInv (r : Robot) : Prop :=
  r.coordinate_movement = false ∧
  (r.state = RobotState.IDLE →
    r.current_left_steps = r.target_left_steps ∧
    r.current_right_steps = r.target_right_steps ∧ r.movement_active = false)

/-- Commands other than the coordinate-target ones and `clearError`. -/
def stepModeNoClear : Cmd → Prop := fun c =>
  match c with
  | Cmd.moveTo _ _ _ => False
  | Cmd.drawTo _ _ _ => False
  | Cmd.clearError => False
  | _ => True

/-- Claim C3's description of one tick under an active coordinate goal,
written from the spec: compute the offset `(dx, dy)` and distance `d` to
the target; inside half a millimetre the goal completes (IDLE); otherwise,
when the normalized heading error `dθ = shortest_delta(θ, atan2(dx, dy))`
exceeds 0.087 rad, plant a pure-rotation sub-goal `IK(0, dθ)`, else a
straight sub-goal `IK(min(d, 1), 0)`, and step the channels toward it; the
servo interpolation precedes and the dead-reckoning pose pass follows as in
every tick. -/
def coordinateTickSpec (ops : FloatOps) (cfg : HardwareConfig) (now_us now_ms : ℕ)
    (r : Robot) : Robot :=
  let r0 := { r with pen_servo := r.pen_servo.update now_ms }
  let dx := r0.target_x - r0.current_x
  let dy := r0.target_y - r0.current_y
  let d := ops.sqrt (dx * dx + dy * dy)
  let r1 :=
    if d < 1/2 then
      { r0 with movement_active := false, coordinate_movement := false
                state := RobotState.IDLE }
    else
      let heading := ops.atan2 dx dy
      let dtheta := normalizeAngle (heading - r0.current_angle)
      let sub :=
        if 87/1000 < |dtheta| then calculateSteps cfg 0 dtheta
        else calculateSteps cfg (min d 1) 0
      Robot.executeMovement now_us
        { r0 with target_left_steps := sub.1, target_right_steps := sub.2
                  current_left_steps := 0, current_right_steps := 0 }
  r1.updatePositionEstimate ops cfg

/-- `stepLeft` touches only the left channel, its goal counter and the left
lifetime total. -/
theorem stepLeft_frame (now_us : ℕ) (r : Robot) :
    (r.stepLeft now_us).pen_servo = r.pen_servo ∧
    (r.stepLeft now_us).state = r.state ∧
    (r.stepLeft now_us).pen_is_down = r.pen_is_down ∧
    (r.stepLeft now_us).current_x = r.current_x ∧
    (r.stepLeft now_us).current_y = r.current_y ∧
    (r.stepLeft now_us).current_angle = r.current_angle ∧
    (r.stepLeft now_us).target_left_steps = r.target_left_steps ∧
    (r.stepLeft now_us).target_right_steps = r.target_right_steps ∧
    (r.stepLeft now_us).current_right_steps = r.current_right_steps ∧
    (r.stepLeft now_us).movement_active = r.movement_active ∧
    (r.stepLeft now_us).target_x = r.target_x ∧
    (r.stepLeft now_us).target_y = r.target_y ∧
    (r.stepLeft now_us).coordinate_movement = r.coordinate_movement ∧
    (r.stepLeft now_us).movement_speed_mms = r.movement_speed_mms ∧
    (r.stepLeft now_us).right_steps_total = r.right_steps_total ∧
    (r.stepLeft now_us).right_motor = r.right_motor ∧
    (r.stepLeft now_us).last_left_steps = r.last_left_steps ∧
    (r.stepLeft now_us).last_right_steps = r.last_right_steps := by
  simp only [Robot.stepLeft]
  split_ifs <;> simp

/-- `stepRight` touches only the right channel, its goal counter and the
right lifetime total. -/
theorem stepRight_frame (now_us : ℕ) (r : Robot) :
    (r.stepRight now_us).pen_servo = r.pen_servo ∧
    (r.stepRight now_us).state = r.state ∧
    (r.stepRight now_us).pen_is_down = r.pen_is_down ∧
    (r.stepRight now_us).current_x = r.current_x ∧
    (r.stepRight now_us).current_y = r.current_y ∧
    (r.stepRight now_us).current_angle = r.current_angle ∧
    (r.stepRight now_us).target_left_steps = r.target_left_steps ∧
    (r.stepRight now_us).target_right_steps = r.target_right_steps ∧
    (r.stepRight now_us).current_left_steps = r.current_left_steps ∧
    (r.stepRight now_us).movement_active = r.movement_active ∧
    (r.stepRight now_us).target_x = r.target_x ∧
    (r.stepRight now_us).target_y = r.target_y ∧
    (r.stepRight now_us).coordinate_movement = r.coordinate_movement ∧
    (r.stepRight now_us).movement_speed_mms = r.movement_speed_mms ∧
    (r.stepRight now_us).left_steps_total = r.left_steps_total ∧
    (r.stepRight now_us).left_motor = r.left_motor ∧
    (r.stepRight now_us).last_left_steps = r.last_left_steps ∧
    (r.stepRight now_us).last_right_steps = r.last_right_steps := by
  simp only [Robot.stepRight]
  split_ifs <;> simp

/-- `executeMovement` leaves the pose, the goal flags, the coordinate
target, the servo and the baselines unchanged. -/
theorem executeMovement_frame (now_us : ℕ) (r : Robot) :
    (r.executeMovement now_us).pen_servo = r.pen_servo ∧
    (r.executeMovement now_us).state = r.state ∧
    (r.executeMovement now_us).pen_is_down = r.pen_is_down ∧
    (r.executeMovement now_us).current_x = r.current_x ∧
    (r.executeMovement now_us).current_y = r.current_y ∧
    (r.executeMovement now_us).current_angle = r.current_angle ∧
    (r.executeMovement now_us).target_left_steps = r.target_left_steps ∧
    (r.executeMovement now_us).target_right_steps = r.target_right_steps ∧
    (r.executeMovement now_us).movement_active = r.movement_active ∧
    (r.executeMovement now_us).target_x = r.target_x ∧
    (r.executeMovement now_us).target_y = r.target_y ∧
    (r.executeMovement now_us).coordinate_movement = r.coordinate_movement ∧
    (r.executeMovement now_us).movement_speed_mms = r.movement_speed_mms ∧
    (r.executeMovement now_us).last_left_steps = r.last_left_steps ∧
    (r.executeMovement now_us).last_right_steps = r.last_right_steps := by
  obtain ⟨a1, a2, a3, a4, a5, a6, a7, a8, a9, a10, a11, a12, a13, a14, a15, a16, a17, a18⟩ :=
    stepLeft_frame now_us r
  obtain ⟨b1, b2, b3, b4, b5, b6, b7, b8, b9, b10, b11, b12, b13, b14, b15, b16, b17, b18⟩ :=
    stepRight_frame now_us (r.stepLeft now_us)
  unfold Robot.executeMovement
  exact ⟨b1.trans a1, b2.trans a2, b3.trans a3, b4.trans a4, b5.trans a5, b6.trans a6,
    b7.trans a7, b8.trans a8, b10.trans a10, b11.trans a11, b12.trans a12, b13.trans a13,
    b14.trans a14, b17.trans a17, b18.trans a18⟩

/-- `updatePositionEstimate` mutates only the pose and the two baselines. -/
theorem updatePositionEstimate_frame (ops : FloatOps) (cfg : HardwareConfig) (r : Robot) :
    (r.updatePositionEstimate ops cfg).left_motor = r.left_motor ∧
    (r.updatePositionEstimate ops cfg).right_motor = r.right_motor ∧
    (r.updatePositionEstimate ops cfg).pen_servo = r.pen_servo ∧
    (r.updatePositionEstimate ops cfg).state = r.state ∧
    (r.updatePositionEstimate ops cfg).pen_is_down = r.pen_is_down ∧
    (r.updatePositionEstimate ops cfg).target_left_steps = r.target_left_steps ∧
    (r.updatePositionEstimate ops cfg).target_right_steps = r.target_right_steps ∧
    (r.updatePositionEstimate ops cfg).current_left_steps = r.current_left_steps ∧
    (r.updatePositionEstimate ops cfg).current_right_steps = r.current_right_steps ∧
    (r.updatePositionEstimate ops cfg).movement_active = r.movement_active ∧
    (r.updatePositionEstimate ops cfg).target_x = r.target_x ∧
    (r.updatePositionEstimate ops cfg).target_y = r.target_y ∧
    (r.updatePositionEstimate ops cfg).coordinate_movement = r.coordinate_movement ∧
    (r.updatePositionEstimate ops cfg).movement_speed_mms = r.movement_speed_mms ∧
    (r.updatePositionEstimate ops cfg).left_steps_total = r.left_steps_total ∧
    (r.updatePositionEstimate ops cfg).right_steps_total = r.right_steps_total := by
  simp only [Robot.updatePositionEstimate]
  split_ifs <;> simp

/-- C6 counterexample: at 2000 steps/s `setSpeed` stores 1000 µs (its
hardcoded floor), while the claim's formula with the configured limits
(600 µs / 10000 µs) yields 600 µs. -/
theorem C6_setSpeed_counterexample :
    (StepperDriver.new.setSpeed 2000).step_interval_us = 1000 ∧
      setSpeedIntervalClaim defaultHardware 2000 = 600 ∧ (1000 : ℚ) ≠ 600 := by
  have hq : (1000000 / 2000 : ℚ) = 500 := by norm_num
  refine ⟨?_, ?_, by norm_num⟩
  · simp only [StepperDriver.setSpeed]
    rw [if_neg (by norm_num), hq]
    norm_num [ctrunc]
  · norm_num [setSpeedIntervalClaim, defaultHardware]

/-- C6 amended: `setSpeed` stores
`max(1000, min(1000000, trunc(1e6 / steps_per_second)))` microseconds with
the HARDCODED bounds 1000 µs and 1000000 µs, every non-positive rate stores
1000000 µs, and nothing but the stored interval changes. -/
theorem C6_setSpeed_amended (m : StepperDriver) (sps : ℚ) :
    (sps ≤ 0 → m.setSpeed sps = { m with step_interval_us := 1000000 }) ∧
    (0 < sps → m.setSpeed sps = { m with step_interval_us := max 1000 (min 1000000 (ctrunc (1000000 / sps)).toNat) }) := by
  constructor
  · intro h
    simp [StepperDriver.setSpeed, h]
  · intro h
    have h2 : ¬sps ≤ 0 := not_le.mpr h
    simp only [StepperDriver.setSpeed, if_neg h2]
    congr 1
    split_ifs <;> omega

/-- Witness for C6's amended claim at 500 steps/s (interval 2000 µs) and at
a negative rate (interval 1000000 µs). -/
theorem C6_setSpeed_amended_witness :
    (StepperDriver.new.setSpeed 500).step_interval_us = 2000 ∧
      (StepperDriver.new.setSpeed (-3)).step_interval_us = 1000000 := by
  have h1 := (C6_setSpeed_amended StepperDriver.new 500).2 (by norm_num)
  have h2 := (C6_setSpeed_amended StepperDriver.new (-3)).1 (by norm_num)
  rw [h1, h2]
  have hq : (1000000 / 500 : ℚ) = 2000 := by norm_num
  constructor
  · rw [hq]
    norm_num [ctrunc]
    omega
  · rfl

/-- C5 failing input: an initialized but released channel whose interval has
elapsed.  `stepForward` returns true, advances the phase, marks the channel
energized and records the timestamp, but the coil pins stay LOW: the source
calls `applyPhase()` before setting `motor_enabled = true`, so the write is
skipped exactly when the channel was released (phase row 1 would be
`1 1 0 0`). -/
theorem C5_released_channel_step_writes_no_pattern :
    (StepperDriver.stepForward 2000
        { pins := [false, false, false, false], current_phase := 0
          last_step_us := 0, step_interval_us := 1000
          initialized := true, motor_enabled := false }).1 = true ∧
    (StepperDriver.stepForward 2000
        { pins := [false, false, false, false], current_phase := 0
          last_step_us := 0, step_interval_us := 1000
          initialized := true, motor_enabled := false }).2 =
      { pins := [false, false, false, false], current_phase := 1
        last_step_us := 2000, step_interval_us := 1000
        initialized := true, motor_enabled := true } ∧
    PHASE_SEQUENCE.getD 1 [] = [true, true, false, false] := by
  decide

/-- C7: every rejected motion command returns false and leaves the entire
coordinator state — pose, goal, state machine, pen, and both stepper
channels — unchanged (the result is literally the input state). -/
theorem C7_rejected_commands_no_side_effects (cfg : HardwareConfig) (r : Robot) :
    (∀ n : ℤ, r.isBusy = true ∨ n ≤ 0 → r.moveForward n = (false, r)) ∧
    (∀ n : ℤ, r.isBusy = true ∨ n ≤ 0 → r.moveBackward n = (false, r)) ∧
    (∀ n : ℤ, r.isBusy = true ∨ n ≤ 0 → r.turnLeft n = (false, r)) ∧
    (∀ n : ℤ, r.isBusy = true ∨ n ≤ 0 → r.turnRight n = (false, r)) ∧
    (∀ x y v : ℚ, r.isBusy = true ∨ isValidPosition cfg x y = false ∨ v ≤ 0 →
      r.moveTo cfg x y v = (false, r)) ∧
    (∀ x y v : ℚ, r.isBusy = true ∨ isValidPosition cfg x y = false ∨ v ≤ 0 →
      r.drawTo cfg x y v = (false, r)) ∧
    (∀ a w : ℚ, r.isBusy = true ∨ w ≤ 0 → r.turnTo cfg a w = (false, r)) ∧
    (∀ a w : ℚ, r.isBusy = true ∨ w ≤ 0 → r.turnBy cfg a w = (false, r)) := by
  refine ⟨?_, ?_, ?_, ?_, ?_, ?_, ?_, ?_⟩
  · intro n h
    rcases h with h | h <;> simp [Robot.moveForward, h]
  · intro n h
    rcases h with h | h <;> simp [Robot.moveBackward, h]
  · intro n h
    rcases h with h | h <;> simp [Robot.turnLeft, h]
  · intro n h
    rcases h with h | h <;> simp [Robot.turnRight, h]
  · intro x y v h
    rcases h with h | h | h <;> simp [Robot.moveTo, h]
  · intro x y v h
    rcases h with h | h | h <;> simp [Robot.drawTo, h]
  · intro a w h
    rcases h with h | h <;> simp [Robot.turnTo, h]
  · intro a w h
    rcases h with h | h <;> simp [Robot.turnBy, h]

/-- Witness for C7: with the default bounds `[-100, 100]²`, `moveTo(150, 0)`
from the freshly initialized robot is rejected and the state is untouched
(still IDLE). -/
theorem C7_witness :
    (Robot.begin defaultHardware 0 Robot.start).moveTo defaultHardware 150 0 15 =
      (false, Robot.begin defaultHardware 0 Robot.start) ∧
    (Robot.begin defaultHardware 0 Robot.start).state = RobotState.IDLE := by
  constructor
  · exact (C7_rejected_commands_no_side_effects defaultHardware
      (Robot.begin defaultHardware 0 Robot.start)).2.2.2.2.1 150 0 15
      (Or.inr (Or.inl (by decide)))
  · rfl

/-- `constrainAngle` lands in `[0, 180]`. -/
theorem constrainAngle_mem (a : ℤ) : 0 ≤ constrainAngle a ∧ constrainAngle a ≤ 180 := by
  unfold constrainAngle
  split_ifs <;> omega

/-- `getProgress` is clamped into `[0, 1]`. -/
theorem getProgress_mem (now_ms : ℕ) (s : ServoDriver) :
    0 ≤ s.getProgress now_ms ∧ s.getProgress now_ms ≤ 1 := by
  simp only [ServoDriver.getProgress]
  split_ifs with h1 h2 h3 h4
  · norm_num
  · norm_num
  · norm_num
  · norm_num
  · exact ⟨not_lt.mp h4, not_lt.mp h2⟩

/-- The interpolated servo angle stays in `[0, 180]` whenever the endpoints
do and the progress is in `[0, 1]`. -/
theorem interpolateAngle_mem (s : ServoDriver) (p : ℚ) (hp0 : 0 ≤ p) (hp1 : p ≤ 1)
    (h1 : 0 ≤ s.start_angle) (h2 : s.start_angle ≤ 180)
    (h3 : 0 ≤ s.target_angle) (h4 : s.target_angle ≤ 180) :
    0 ≤ s.interpolateAngle p ∧ s.interpolateAngle p ≤ 180 := by
  unfold ServoDriver.interpolateAngle
  have hb1 : (0:ℚ) ≤ (s.start_angle : ℚ) := by exact_mod_cast h1
  have hb2 : (s.start_angle : ℚ) ≤ 180 := by exact_mod_cast h2
  have hb3 : (0:ℚ) ≤ (s.target_angle : ℚ) := by exact_mod_cast h3
  have hb4 : (s.target_angle : ℚ) ≤ 180 := by exact_mod_cast h4
  have hv0 : (0:ℚ) ≤ (s.start_angle : ℚ) + ((s.target_angle : ℚ) - (s.start_angle : ℚ)) * p := by
    nlinarith
  have hv1 : (s.start_angle : ℚ) + ((s.target_angle : ℚ) - (s.start_angle : ℚ)) * p ≤ 180 := by
    nlinarith
  rw [ctrunc, if_pos (by linarith)]
  constructor
  · exact Int.le_floor.mpr (by push_cast; linarith)
  · have h5 : ⌊(s.start_angle : ℚ) + ((s.target_angle : ℚ) - (s.start_angle : ℚ)) * p + 1/2⌋ < 181 :=
      Int.floor_lt.mpr (by push_cast; linarith)
    omega

/-- `setAngle` preserves the servo invariant. -/
theorem servoInv_setAngle (a : ℤ) (s : ServoDriver) (h : ServoInv s) :
    ServoInv (s.setAngle a) := by
  obtain ⟨c1, c2, t1, t2, b1, b2, hm⟩ := h
  have hc := constrainAngle_mem a
  unfold ServoDriver.setAngle
  split_ifs with h0
  · exact ⟨c1, c2, t1, t2, b1, b2, hm⟩
  · exact ⟨hc.1, hc.2, hc.1, hc.2, b1, b2, fun _ => rfl⟩

/-- `sweepTo` preserves the servo invariant. -/
theorem servoInv_sweepTo (now_ms : ℕ) (a : ℤ) (d : ℕ) (s : ServoDriver) (h : ServoInv s) :
    ServoInv (s.sweepTo now_ms a d) := by
  obtain ⟨c1, c2, t1, t2, b1, b2, hm⟩ := h
  have hc := constrainAngle_mem a
  simp only [ServoDriver.sweepTo]
  split_ifs with h0 h1 h2
  · exact ⟨c1, c2, t1, t2, b1, b2, hm⟩
  · exact ⟨c1, c2, hc.1, hc.2, b1, b2, fun _ => h1.symm⟩
  · exact ⟨c1, c2, hc.1, hc.2, c1, c2, by simp⟩
  · exact ⟨c1, c2, hc.1, hc.2, c1, c2, by simp⟩

/-- `stop` preserves the servo invariant. -/
theorem servoInv_stop (s : ServoDriver) (h : ServoInv s) : ServoInv s.stop := by
  obtain ⟨c1, c2, t1, t2, b1, b2, hm⟩ := h
  unfold ServoDriver.stop
  split_ifs with h0
  · exact ⟨c1, c2, t1, t2, b1, b2, hm⟩
  · exact ⟨c1, c2, c1, c2, b1, b2, fun _ => rfl⟩

/-- `update` preserves the servo invariant. -/
theorem servoInv_update (now_ms : ℕ) (s : ServoDriver) (h : ServoInv s) :
    ServoInv (s.update now_ms) := by
  obtain ⟨c1, c2, t1, t2, b1, b2, hm⟩ := h
  have hp := getProgress_mem now_ms s
  simp only [ServoDriver.update]
  split_ifs with h0 h1 h2
  · exact ⟨c1, c2, t1, t2, b1, b2, hm⟩
  · exact ⟨t1, t2, t1, t2, b1, b2, fun _ => rfl⟩
  · have hi := interpolateAngle_mem s (s.getProgress now_ms) hp.1 hp.2 b1 b2 t1 t2
    refine ⟨hi.1, hi.2, t1, t2, b1, b2, ?_⟩
    intro hfalse
    have hfalse2 : s.is_moving = false := hfalse
    have hmv : s.is_moving = true := by
      by_contra hc
      simp only [Bool.not_eq_true] at hc
      simp [hc] at h0
    rw [hmv] at hfalse2
    simp at hfalse2
  · exact ⟨c1, c2, t1, t2, b1, b2, hm⟩

/-- Every single servo operation preserves the invariant. -/
theorem servoInv_applySCmd (c : SCmd) (s : ServoDriver) (h : ServoInv s) :
    ServoInv (applySCmd c s) := by
  cases c with
  | setAngle a => exact servoInv_setAngle a s h
  | sweepTo now_ms a d => exact servoInv_sweepTo now_ms a d s h
  | update now_ms => exact servoInv_update now_ms s h
  | stop => exact servoInv_stop s h

/-- Every sequence of servo operations preserves the invariant. -/
theorem servoInv_applySCmds (cs : List SCmd) :
    ∀ s : ServoDriver, ServoInv s → ServoInv (applySCmds cs s) := by
  induction cs with
  | nil => intro s h; exact h
  | cons c cs ih =>
      intro s h
      exact ih (applySCmd c s) (servoInv_applySCmd c s h)

/-- C9: for an attached servo channel (any `begin` angle) and any sequence
of `setAngle` / `sweepTo` / `update` / `stop` operations, the current angle
stays within `[0°, 180°]`, and whenever the moving flag is false the current
angle equals the target angle. -/
theorem C9_servo_invariant (a0 : ℤ) (cs : List SCmd) :
    0 ≤ (applySCmds cs (ServoDriver.new.begin a0)).current_angle ∧
    (applySCmds cs (ServoDriver.new.begin a0)).current_angle ≤ 180 ∧
    ((applySCmds cs (ServoDriver.new.begin a0)).is_moving = false →
      (applySCmds cs (ServoDriver.new.begin a0)).current_angle =
        (applySCmds cs (ServoDriver.new.begin a0)).target_angle) := by
  have h0 : ServoInv (ServoDriver.new.begin a0) := by
    have hc := constrainAngle_mem a0
    unfold ServoDriver.begin
    exact ⟨hc.1, hc.2, hc.1, hc.2, hc.1, hc.2, fun _ => rfl⟩
  have h := servoInv_applySCmds cs (ServoDriver.new.begin a0) h0
  exact ⟨h.1, h.2.1, h.2.2.2.2.2.2⟩

/-- Witness for C9: a concrete run (sweep to an out-of-range angle, then
stop) whose final state has the moving flag false. -/
theorem C9_servo_invariant_witness :
    0 ≤ (applySCmds [SCmd.sweepTo 0 200 100, SCmd.stop] (ServoDriver.new.begin 90)).current_angle ∧
    (applySCmds [SCmd.sweepTo 0 200 100, SCmd.stop] (ServoDriver.new.begin 90)).current_angle =
      (applySCmds [SCmd.sweepTo 0 200 100, SCmd.stop] (ServoDriver.new.begin 90)).target_angle := by
  have h := C9_servo_invariant 90 [SCmd.sweepTo 0 200 100, SCmd.stop]
  exact ⟨h.1, h.2.2 (by decide)⟩

theorem cround_abs_le (q : ℚ) : |(cround q : ℚ) - q| ≤ 1/2 := by
  unfold cround
  split_ifs with h
  · have h1 : ((⌊q + 1/2⌋ : ℤ) : ℚ) ≤ q + 1/2 := Int.floor_le _
    have h2 : q + 1/2 < ((⌊q + 1/2⌋ : ℤ) : ℚ) + 1 := Int.lt_floor_add_one _
    exact abs_le.mpr ⟨by linarith, by linarith⟩
  · have h1 : q - 1/2 ≤ ((⌈q - 1/2⌉ : ℤ) : ℚ) := Int.le_ceil _
    have h2 : ((⌈q - 1/2⌉ : ℤ) : ℚ) < q - 1/2 + 1 := Int.ceil_lt_add_one _
    exact abs_le.mpr ⟨by linarith, by linarith⟩

theorem ik_fk_general (circ spr wb dist dth : ℚ)
    (hc : 0 < circ) (hp : 0 < spr) (hw : 0 < wb) :
    |(((cround ((dist - dth * wb / 2) / circ * spr) : ℤ) : ℚ) / spr * circ +
        ((cround ((dist + dth * wb / 2) / circ * spr) : ℤ) : ℚ) / spr * circ) / 2 - dist| ≤
      circ / spr ∧
    |(((cround ((dist + dth * wb / 2) / circ * spr) : ℤ) : ℚ) / spr * circ -
        ((cround ((dist - dth * wb / 2) / circ * spr) : ℤ) : ℚ) / spr * circ) / wb - dth| ≤
      2 * (circ / spr) / wb := by
  have hc0 : circ ≠ 0 := ne_of_gt hc
  have hp0 : spr ≠ 0 := ne_of_gt hp
  have hw0 : wb ≠ 0 := ne_of_gt hw
  have hk : (0:ℚ) < circ / spr := div_pos hc hp
  have e1 := abs_le.mp (cround_abs_le ((dist - dth * wb / 2) / circ * spr))
  have e2 := abs_le.mp (cround_abs_le ((dist + dth * wb / 2) / circ * spr))
  obtain ⟨e1l, e1u⟩ := e1
  obtain ⟨e2l, e2u⟩ := e2
  set s1 : ℚ := ((cround ((dist - dth * wb / 2) / circ * spr) : ℤ) : ℚ) with hs1
  set s2 : ℚ := ((cround ((dist + dth * wb / 2) / circ * spr) : ℤ) : ℚ) with hs2
  have hA : (s1 / spr * circ + s2 / spr * circ) / 2 - dist =
      ((s1 - (dist - dth * wb / 2) / circ * spr) +
       (s2 - (dist + dth * wb / 2) / circ * spr)) * (circ / spr / 2) := by
    field_simp
    ring
  have hB : (s2 / spr * circ - s1 / spr * circ) / wb - dth =
      ((s2 - (dist + dth * wb / 2) / circ * spr) -
       (s1 - (dist - dth * wb / 2) / circ * spr)) * (circ / spr / wb) := by
    field_simp
    ring
  constructor
  · rw [hA]
    have hk2 : (0:ℚ) ≤ circ / spr / 2 := by positivity
    have hu := mul_le_mul_of_nonneg_right
      (show (s1 - (dist - dth * wb / 2) / circ * spr) +
            (s2 - (dist + dth * wb / 2) / circ * spr) ≤ 1 by linarith) hk2
    have hl := mul_le_mul_of_nonneg_right
      (show (-1 : ℚ) ≤ (s1 - (dist - dth * wb / 2) / circ * spr) +
            (s2 - (dist + dth * wb / 2) / circ * spr) by linarith) hk2
    rw [abs_le]
    constructor <;> nlinarith [hk]
  · rw [hB]
    have hk2 : (0:ℚ) ≤ circ / spr / wb := by positivity
    have hu := mul_le_mul_of_nonneg_right
      (show (s2 - (dist + dth * wb / 2) / circ * spr) -
            (s1 - (dist - dth * wb / 2) / circ * spr) ≤ 1 by linarith) hk2
    have hl := mul_le_mul_of_nonneg_right
      (show (-1 : ℚ) ≤ (s2 - (dist + dth * wb / 2) / circ * spr) -
            (s1 - (dist - dth * wb / 2) / circ * spr) by linarith) hk2
    have ht : 2 * (circ / spr) / wb = 2 * (circ / spr / wb) := by ring
    rw [abs_le, ht]
    constructor <;> nlinarith [hk, hk2]

/-- C8: for any `(distance, Δθ)`, running the inverse kinematics
(`calculateSteps`) and then the forward kinematics (`stepsToMovement`) on
the rounded integer step counts reproduces the distance within one
`mm_per_step` and the angle within `2 · mm_per_step / wheelbase`. -/
theorem C8_ik_fk_roundtrip (cfg : HardwareConfig) (hd : 0 < cfg.wheel_diameter_mm)
    (hw : 0 < cfg.wheelbase_mm) (hs : 0 < cfg.steps_per_revolution)
    (distance dtheta : ℚ) :
    |(stepsToMovement cfg (calculateSteps cfg distance dtheta).1
        (calculateSteps cfg distance dtheta).2).1 - distance| ≤ mmPerStep cfg ∧
    |(stepsToMovement cfg (calculateSteps cfg distance dtheta).1
        (calculateSteps cfg distance dtheta).2).2 - dtheta| ≤
      2 * mmPerStep cfg / cfg.wheelbase_mm := by
  have hpi : (0:ℚ) < piQ := by norm_num [piQ]
  have h := ik_fk_general (piQ * cfg.wheel_diameter_mm) ((cfg.steps_per_revolution : ℚ))
    cfg.wheelbase_mm distance dtheta (mul_pos hpi hd) (by exact_mod_cast hs) hw
  simpa [stepsToMovement, calculateSteps, mmPerStep] using h

/-- Witness for C8 at the shipped hardware parameters (25 mm wheels, 30 mm
wheelbase, 2048 steps/rev) with `distance = 10`, `Δθ = 0`. -/
theorem C8_ik_fk_roundtrip_witness :
    |(stepsToMovement defaultHardware (calculateSteps defaultHardware 10 0).1
        (calculateSteps defaultHardware 10 0).2).1 - 10| ≤ mmPerStep defaultHardware ∧
    |(stepsToMovement defaultHardware (calculateSteps defaultHardware 10 0).1
        (calculateSteps defaultHardware 10 0).2).2 - 0| ≤
      2 * mmPerStep defaultHardware / defaultHardware.wheelbase_mm :=
  C8_ik_fk_roundtrip defaultHardware (by norm_num [defaultHardware])
    (by norm_num [defaultHardware]) (by norm_num [defaultHardware]) 10 0

/-- C10: `emergencyStop` and `clearError` leave the pose, the lifetime step
totals, the per-goal counters and targets, each motor's phase and timing
state, the servo, the pen flag and the coordinate goal untouched; their only
effects are the robot state, the movement-active flag, and releasing the
coils (all four pins of each motor driven low, energized flag cleared).
`clearError` outside ERROR / EMERGENCY_STOP is the identity. -/
theorem C10_estop_clear_frame (r : Robot)
    (hl : r.left_motor.initialized = true) (hr : r.right_motor.initialized = true) :
    (r.emergencyStop.current_x = r.current_x ∧
     r.emergencyStop.current_y = r.current_y ∧
     r.emergencyStop.current_angle = r.current_angle ∧
     r.emergencyStop.left_steps_total = r.left_steps_total ∧
     r.emergencyStop.right_steps_total = r.right_steps_total ∧
     r.emergencyStop.current_left_steps = r.current_left_steps ∧
     r.emergencyStop.current_right_steps = r.current_right_steps ∧
     r.emergencyStop.target_left_steps = r.target_left_steps ∧
     r.emergencyStop.target_right_steps = r.target_right_steps ∧
     r.emergencyStop.left_motor.current_phase = r.left_motor.current_phase ∧
     r.emergencyStop.right_motor.current_phase = r.right_motor.current_phase ∧
     r.emergencyStop.left_motor.last_step_us = r.left_motor.last_step_us ∧
     r.emergencyStop.right_motor.last_step_us = r.right_motor.last_step_us ∧
     r.emergencyStop.left_motor.step_interval_us = r.left_motor.step_interval_us ∧
     r.emergencyStop.right_motor.step_interval_us = r.right_motor.step_interval_us ∧
     r.emergencyStop.pen_servo = r.pen_servo ∧
     r.emergencyStop.pen_is_down = r.pen_is_down ∧
     r.emergencyStop.target_x = r.target_x ∧
     r.emergencyStop.target_y = r.target_y ∧
     r.emergencyStop.coordinate_movement = r.coordinate_movement ∧
     r.emergencyStop.movement_speed_mms = r.movement_speed_mms ∧
     r.emergencyStop.last_left_steps = r.last_left_steps ∧
     r.emergencyStop.last_right_steps = r.last_right_steps ∧
     r.emergencyStop.state = RobotState.EMERGENCY_STOP ∧
     r.emergencyStop.movement_active = false ∧
     r.emergencyStop.left_motor.pins = [false, false, false, false] ∧
     r.emergencyStop.right_motor.pins = [false, false, false, false] ∧
     r.emergencyStop.left_motor.motor_enabled = false ∧
     r.emergencyStop.right_motor.motor_enabled = false) ∧
    (r.state = RobotState.ERROR ∨ r.state = RobotState.EMERGENCY_STOP →
     r.clearError.current_x = r.current_x ∧
     r.clearError.current_y = r.current_y ∧
     r.clearError.current_angle = r.current_angle ∧
     r.clearError.left_steps_total = r.left_steps_total ∧
     r.clearError.right_steps_total = r.right_steps_total ∧
     r.clearError.current_left_steps = r.current_left_steps ∧
     r.clearError.current_right_steps = r.current_right_steps ∧
     r.clearError.target_left_steps = r.target_left_steps ∧
     r.clearError.target_right_steps = r.target_right_steps ∧
     r.clearError.left_motor.current_phase = r.left_motor.current_phase ∧
     r.clearError.right_motor.current_phase = r.right_motor.current_phase ∧
     r.clearError.pen_servo = r.pen_servo ∧
     r.clearError.pen_is_down = r.pen_is_down ∧
     r.clearError.coordinate_movement = r.coordinate_movement ∧
     r.clearError.last_left_steps = r.last_left_steps ∧
     r.clearError.last_right_steps = r.last_right_steps ∧
     r.clearError.state = RobotState.IDLE ∧
     r.clearError.movement_active = false ∧
     r.clearError.left_motor.pins = [false, false, false, false] ∧
     r.clearError.right_motor.pins = [false, false, false, false]) ∧
    (¬(r.state = RobotState.ERROR ∨ r.state = RobotState.EMERGENCY_STOP) →
      r.clearError = r) := by
  refine ⟨?_, ?_, ?_⟩
  · simp [Robot.emergencyStop, Robot.stopAllMotors, StepperDriver.release,
      StepperDriver.clearPins, hl, hr]
  · intro h
    simp only [Robot.clearError, if_pos h]
    simp [Robot.stopAllMotors, StepperDriver.release, StepperDriver.clearPins, hl, hr]
  · intro h
    simp only [Robot.clearError, if_neg h]

/-- `setSpeed` changes only the stored interval. -/
theorem setSpeed_initialized (sps : ℚ) (m : StepperDriver) :
    (m.setSpeed sps).initialized = m.initialized := by
  simp only [StepperDriver.setSpeed]
  split_ifs <;> rfl

/-- `release` does not change the initialized flag. -/
theorem release_initialized (m : StepperDriver) :
    m.release.initialized = m.initialized := by
  simp only [StepperDriver.release, StepperDriver.clearPins]
  split_ifs <;> rfl

/-- After `begin`, both motor channels are initialized. -/
theorem beginRobot_motors_initialized (cfg : HardwareConfig) (now_us : ℕ) (r : Robot) :
    (Robot.begin cfg now_us r).left_motor.initialized = true ∧
    (Robot.begin cfg now_us r).right_motor.initialized = true := by
  constructor <;> simp [Robot.begin, setSpeed_initialized, StepperDriver.begin]

/-- `emergencyStop` does not change the initialized flags. -/
theorem emergencyStop_initialized (r : Robot) :
    r.emergencyStop.left_motor.initialized = r.left_motor.initialized ∧
    r.emergencyStop.right_motor.initialized = r.right_motor.initialized := by
  constructor <;> simp [Robot.emergencyStop, Robot.stopAllMotors, release_initialized]

/-- Witness for C10: the initialized robot, stopped and cleared; the pose
and counters survive while the state walks ESTOP → IDLE. -/
theorem C10_witness :
    (Robot.begin defaultHardware 0 Robot.start).emergencyStop.state =
        RobotState.EMERGENCY_STOP ∧
    (Robot.begin defaultHardware 0 Robot.start).emergencyStop.clearError.state =
        RobotState.IDLE ∧
    (Robot.begin defaultHardware 0 Robot.start).emergencyStop.clearError.current_x =
        (Robot.begin defaultHardware 0 Robot.start).emergencyStop.current_x := by
  have hinit := beginRobot_motors_initialized defaultHardware 0 Robot.start
  have hinit2 := emergencyStop_initialized (Robot.begin defaultHardware 0 Robot.start)
  have h1 := C10_estop_clear_frame (Robot.begin defaultHardware 0 Robot.start)
    hinit.1 hinit.2
  have h2 := C10_estop_clear_frame
    ((Robot.begin defaultHardware 0 Robot.start).emergencyStop)
    (hinit2.1.trans hinit.1) (hinit2.2.trans hinit.2)
  obtain ⟨-, -, -, -, -, -, -, -, -, -, -, -, -, -, -, -, -, -, -, -, -, -, -, hs, -⟩ := h1.1
  have hc := h2.2.1 (Or.inr hs)
  obtain ⟨hx, -, -, -, -, -, -, -, -, -, -, -, -, -, -, -, hst, -⟩ := hc
  exact ⟨hs, hst, hx⟩

/-- `executeMovement` on a re-targeted state (fresh sub-goal counters) still
leaves pose, flags, servo and baselines untouched. -/
theorem executeMovement_retarget_frame (now_us : ℕ) (r : Robot) (a b : ℤ) :
    (Robot.executeMovement now_us
      { r with target_left_steps := a, target_right_steps := b,
               current_left_steps := 0, current_right_steps := 0 }).pen_servo = r.pen_servo ∧
    (Robot.executeMovement now_us
      { r with target_left_steps := a, target_right_steps := b,
               current_left_steps := 0, current_right_steps := 0 }).state = r.state ∧
    (Robot.executeMovement now_us
      { r with target_left_steps := a, target_right_steps := b,
               current_left_steps := 0, current_right_steps := 0 }).pen_is_down = r.pen_is_down ∧
    (Robot.executeMovement now_us
      { r with target_left_steps := a, target_right_steps := b,
               current_left_steps := 0, current_right_steps := 0 }).current_x = r.current_x ∧
    (Robot.executeMovement now_us
      { r with target_left_steps := a, target_right_steps := b,
               current_left_steps := 0, current_right_steps := 0 }).current_y = r.current_y ∧
    (Robot.executeMovement now_us
      { r with target_left_steps := a, target_right_steps := b,
               current_left_steps := 0, current_right_steps := 0 }).current_angle = r.current_angle ∧
    (Robot.executeMovement now_us
      { r with target_left_steps := a, target_right_steps := b,
               current_left_steps := 0, current_right_steps := 0 }).movement_active = r.movement_active ∧
    (Robot.executeMovement now_us
      { r with target_left_steps := a, target_right_steps := b,
               current_left_steps := 0, current_right_steps := 0 }).target_x = r.target_x ∧
    (Robot.executeMovement now_us
      { r with target_left_steps := a, target_right_steps := b,
               current_left_steps := 0, current_right_steps := 0 }).target_y = r.target_y ∧
    (Robot.executeMovement now_us
      { r with target_left_steps := a, target_right_steps := b,
               current_left_steps := 0, current_right_steps := 0 }).coordinate_movement =
      r.coordinate_movement ∧
    (Robot.executeMovement now_us
      { r with target_left_steps := a, target_right_steps := b,
               current_left_steps := 0, current_right_steps := 0 }).movement_speed_mms =
      r.movement_speed_mms ∧
    (Robot.executeMovement now_us
      { r with target_left_steps := a, target_right_steps := b,
               current_left_steps := 0, current_right_steps := 0 }).last_left_steps =
      r.last_left_steps ∧
    (Robot.executeMovement now_us
      { r with target_left_steps := a, target_right_steps := b,
               current_left_steps := 0, current_right_steps := 0 }).last_right_steps =
      r.last_right_steps := by
  obtain ⟨f1, f2, f3, f4, f5, f6, f7, f8, f9, f10, f11, f12, f13, f14, f15⟩ :=
    executeMovement_frame now_us
      { r with target_left_steps := a, target_right_steps := b,
               current_left_steps := 0, current_right_steps := 0 }
  exact ⟨f1, f2, f3, f4, f5, f6, f9, f10, f11, f12, f13, f14, f15⟩

/-- `executeCoordinateMovement` leaves the pose, the flags, the coordinate
target, the servo and the baselines unchanged (it only plants sub-targets
and steps the channels). -/
theorem executeCoordinateMovement_frame (ops : FloatOps) (cfg : HardwareConfig)
    (now_us : ℕ) (r : Robot) :
    (r.executeCoordinateMovement ops cfg now_us).pen_servo = r.pen_servo ∧
    (r.executeCoordinateMovement ops cfg now_us).state = r.state ∧
    (r.executeCoordinateMovement ops cfg now_us).pen_is_down = r.pen_is_down ∧
    (r.executeCoordinateMovement ops cfg now_us).current_x = r.current_x ∧
    (r.executeCoordinateMovement ops cfg now_us).current_y = r.current_y ∧
    (r.executeCoordinateMovement ops cfg now_us).current_angle = r.current_angle ∧
    (r.executeCoordinateMovement ops cfg now_us).movement_active = r.movement_active ∧
    (r.executeCoordinateMovement ops cfg now_us).target_x = r.target_x ∧
    (r.executeCoordinateMovement ops cfg now_us).target_y = r.target_y ∧
    (r.executeCoordinateMovement ops cfg now_us).coordinate_movement = r.coordinate_movement ∧
    (r.executeCoordinateMovement ops cfg now_us).movement_speed_mms = r.movement_speed_mms ∧
    (r.executeCoordinateMovement ops cfg now_us).last_left_steps = r.last_left_steps ∧
    (r.executeCoordinateMovement ops cfg now_us).last_right_steps = r.last_right_steps := by
  simp only [Robot.executeCoordinateMovement]
  split_ifs with h1 h2
  · simp
  · exact executeMovement_retarget_frame now_us r _ _
  · exact executeMovement_retarget_frame now_us r _ _

/-- A tick is `updatePositionEstimate` applied to an intermediate state that
has the same pose and the same baselines as the pre-tick state. -/
theorem update_decomp (ops : FloatOps) (cfg : HardwareConfig) (now_us now_ms : ℕ) (r : Robot) :
    ∃ r1 : Robot, r.update ops cfg now_us now_ms = r1.updatePositionEstimate ops cfg ∧
      r1.current_x = r.current_x ∧ r1.current_y = r.current_y ∧
      r1.current_angle = r.current_angle ∧
      r1.last_left_steps = r.last_left_steps ∧ r1.last_right_steps = r.last_right_steps := by
  refine ⟨_, rfl, ?_, ?_, ?_, ?_, ?_⟩ <;>
    · simp only [Robot.update]
      split_ifs <;> simp [executeCoordinateMovement_frame, executeMovement_frame]

/-- The dead-reckoning update applies exactly the forward-kinematics
formula to the step deltas accumulated since the last baseline, sampling
the heading before the angle increment, and is the identity on the pose
when both deltas are zero. -/
theorem updatePositionEstimate_pose (ops : FloatOps) (cfg : HardwareConfig) (r : Robot)
    (d1 d2 : ℤ)
    (h1 : d1 = r.left_steps_total - r.last_left_steps)
    (h2 : d2 = r.right_steps_total - r.last_right_steps) :
    (¬(d1 = 0 ∧ d2 = 0) →
      (r.updatePositionEstimate ops cfg).current_x =
        r.current_x + ((d1 : ℚ) + (d2 : ℚ)) / 2 * mmPerStep cfg * ops.sin r.current_angle ∧
      (r.updatePositionEstimate ops cfg).current_y =
        r.current_y + ((d1 : ℚ) + (d2 : ℚ)) / 2 * mmPerStep cfg * ops.cos r.current_angle ∧
      (r.updatePositionEstimate ops cfg).current_angle =
        normalizeAngle (r.current_angle +
          ((d2 : ℚ) - (d1 : ℚ)) * mmPerStep cfg / cfg.wheelbase_mm)) ∧
    ((d1 = 0 ∧ d2 = 0) →
      (r.updatePositionEstimate ops cfg).current_x = r.current_x ∧
      (r.updatePositionEstimate ops cfg).current_y = r.current_y ∧
      (r.updatePositionEstimate ops cfg).current_angle = r.current_angle) := by
  subst h1 h2
  constructor
  · intro hne
    have hcond : r.left_steps_total - r.last_left_steps ≠ 0 ∨
        r.right_steps_total - r.last_right_steps ≠ 0 := by tauto
    simp only [Robot.updatePositionEstimate, stepsToMovement, mmPerStep, if_pos hcond]
    refine ⟨by push_cast; ring, by push_cast; ring, ?_⟩
    congr 1
    push_cast
    ring
  · intro hz
    have hcond : ¬(r.left_steps_total - r.last_left_steps ≠ 0 ∨
        r.right_steps_total - r.last_right_steps ≠ 0) := by tauto
    simp only [Robot.updatePositionEstimate, if_neg hcond]
    exact ⟨trivial, trivial, trivial⟩

/-- C1: in any tick from a baseline-synchronized state (which every
reachable inter-tick state is), if steps `(dsl, dsr)` fired then the pose
update equals the forward kinematics exactly — `d = (dsl+dsr)/2 ·
mm_per_step`, `dθ = (dsr−dsl) · mm_per_step / wheelbase`, `x += d·sin θ`,
`y += d·cos θ` with `θ` sampled before `dθ` is added, followed by
normalization — and a tick with no fired steps leaves the pose unchanged. -/
theorem C1_tick_pose_fk (ops : FloatOps) (cfg : HardwareConfig) (now_us now_ms : ℕ) (r : Robot)
    (hL : r.last_left_steps = r.left_steps_total)
    (hR : r.last_right_steps = r.right_steps_total)
    (dsl dsr : ℤ)
    (hdsl : dsl = (r.update ops cfg now_us now_ms).left_steps_total - r.left_steps_total)
    (hdsr : dsr = (r.update ops cfg now_us now_ms).right_steps_total - r.right_steps_total) :
    (¬(dsl = 0 ∧ dsr = 0) →
      (r.update ops cfg now_us now_ms).current_x =
        r.current_x + ((dsl : ℚ) + (dsr : ℚ)) / 2 * mmPerStep cfg * ops.sin r.current_angle ∧
      (r.update ops cfg now_us now_ms).current_y =
        r.current_y + ((dsl : ℚ) + (dsr : ℚ)) / 2 * mmPerStep cfg * ops.cos r.current_angle ∧
      (r.update ops cfg now_us now_ms).current_angle =
        normalizeAngle (r.current_angle +
          ((dsr : ℚ) - (dsl : ℚ)) * mmPerStep cfg / cfg.wheelbase_mm)) ∧
    ((dsl = 0 ∧ dsr = 0) →
      (r.update ops cfg now_us now_ms).current_x = r.current_x ∧
      (r.update ops cfg now_us now_ms).current_y = r.current_y ∧
      (r.update ops cfg now_us now_ms).current_angle = r.current_angle) := by
  obtain ⟨r1, hEq, hx, hy, ha, hll, hrr⟩ := update_decomp ops cfg now_us now_ms r
  obtain ⟨-, -, -, -, -, -, -, -, -, -, -, -, -, -, hTl0, hTr0⟩ :=
    updatePositionEstimate_frame ops cfg r1
  have hTl : (r.update ops cfg now_us now_ms).left_steps_total = r1.left_steps_total := by
    rw [hEq]; exact hTl0
  have hTr : (r.update ops cfg now_us now_ms).right_steps_total = r1.right_steps_total := by
    rw [hEq]; exact hTr0
  have hd1 : dsl = r1.left_steps_total - r1.last_left_steps := by
    rw [hll, hL, hdsl, hTl]
  have hd2 : dsr = r1.right_steps_total - r1.last_right_steps := by
    rw [hrr, hR, hdsr, hTr]
  have hpose := updatePositionEstimate_pose ops cfg r1 dsl dsr hd1 hd2
  rw [hEq, ← hx, ← hy, ← ha]
  exact hpose

/-- Witness for C1: a tick of the freshly initialized robot fires no steps
and leaves the pose unchanged. -/
theorem C1_tick_pose_fk_witness :
    (Robot.update constOps defaultHardware 0 0
        (Robot.begin defaultHardware 0 Robot.start)).current_x =
      (Robot.begin defaultHardware 0 Robot.start).current_x ∧
    (Robot.update constOps defaultHardware 0 0
        (Robot.begin defaultHardware 0 Robot.start)).current_y =
      (Robot.begin defaultHardware 0 Robot.start).current_y ∧
    (Robot.update constOps defaultHardware 0 0
        (Robot.begin defaultHardware 0 Robot.start)).current_angle =
      (Robot.begin defaultHardware 0 Robot.start).current_angle := by
  have h := C1_tick_pose_fk constOps defaultHardware 0 0
    (Robot.begin defaultHardware 0 Robot.start) rfl rfl 0 0 (by decide) (by decide)
  exact h.2 ⟨rfl, rfl⟩

/-- Releasing an already released channel changes nothing. -/
theorem release_eq_self (m : StepperDriver) (h : Released m) : m.release = m := by
  obtain ⟨pins, phase, last, intv, init, en⟩ := m
  cases init with
  | false => simp [StepperDriver.release]
  | true =>
      obtain ⟨he, hp⟩ := h rfl
      simp only at he hp
      subst he
      subst hp
      simp [StepperDriver.release, StepperDriver.clearPins]

/-- `emergencyStop` leaves the coordinator in the latched configuration. -/
theorem estopped_emergencyStop (r : Robot) : Estopped r.emergencyStop := by
  refine ⟨rfl, rfl, ?_, ?_⟩ <;>
  · intro hi
    constructor <;>
    · simp only [Robot.emergencyStop, Robot.stopAllMotors] at hi ⊢
      rw [release_initialized] at hi
      simp [StepperDriver.release, StepperDriver.clearPins, hi]

/-- With the emergency stop latched, any command or tick other than
`clearError` keeps the latch and leaves both channels and both lifetime
step totals untouched: no step can fire. -/
theorem applyCmd_estop_frozen (ops : FloatOps) (cfg : HardwareConfig) (c : Cmd) (r : Robot)
    (hE : Estopped r) (hc : c ≠ Cmd.clearError) :
    Estopped (applyCmd ops cfg c r) ∧
    (applyCmd ops cfg c r).left_motor = r.left_motor ∧
    (applyCmd ops cfg c r).right_motor = r.right_motor ∧
    (applyCmd ops cfg c r).left_steps_total = r.left_steps_total ∧
    (applyCmd ops cfg c r).right_steps_total = r.right_steps_total := by
  obtain ⟨hs, hm, hRl, hRr⟩ := hE
  have hb : r.isBusy = true := by simp [Robot.isBusy, hs]
  cases c with
  | tick now_us now_ms =>
      have hcond : ¬(({ r with pen_servo := r.pen_servo.update now_ms }).movement_active = true ∧
          ({ r with pen_servo := r.pen_servo.update now_ms }).state = RobotState.MOVING) := by
        simp [hm]
      simp only [applyCmd, Robot.update, if_neg hcond]
      obtain ⟨f1, f2, f3, f4, f5, f6, f7, f8, f9, f10, f11, f12, f13, f14, f15, f16⟩ :=
        updatePositionEstimate_frame ops cfg { r with pen_servo := r.pen_servo.update now_ms }
      refine ⟨⟨f4.trans hs, f10.trans hm, ?_, ?_⟩, f1, f2, f15, f16⟩
      · rw [f1]; exact hRl
      · rw [f2]; exact hRr
  | moveForward n =>
      simp only [applyCmd, Robot.moveForward, hb]
      simp only [Bool.true_or, if_pos]
      refine ⟨⟨?_, ?_, hRl, hRr⟩, ?_, ?_, ?_, ?_⟩ <;> first | exact hs | exact hm | rfl | trivial
  | moveBackward n =>
      simp only [applyCmd, Robot.moveBackward, hb]
      simp only [Bool.true_or, if_pos]
      refine ⟨⟨?_, ?_, hRl, hRr⟩, ?_, ?_, ?_, ?_⟩ <;> first | exact hs | exact hm | rfl | trivial
  | turnLeft n =>
      simp only [applyCmd, Robot.turnLeft, hb]
      simp only [Bool.true_or, if_pos]
      refine ⟨⟨?_, ?_, hRl, hRr⟩, ?_, ?_, ?_, ?_⟩ <;> first | exact hs | exact hm | rfl | trivial
  | turnRight n =>
      simp only [applyCmd, Robot.turnRight, hb]
      simp only [Bool.true_or, if_pos]
      refine ⟨⟨?_, ?_, hRl, hRr⟩, ?_, ?_, ?_, ?_⟩ <;> first | exact hs | exact hm | rfl | trivial
  | moveTo x y v =>
      simp only [applyCmd, Robot.moveTo, hb]
      simp only [Bool.true_or, if_pos]
      refine ⟨⟨?_, ?_, hRl, hRr⟩, ?_, ?_, ?_, ?_⟩ <;> first | exact hs | exact hm | rfl | trivial
  | drawTo x y v =>
      simp only [applyCmd, Robot.drawTo, hb]
      simp only [Bool.true_or, if_pos]
      refine ⟨⟨?_, ?_, hRl, hRr⟩, ?_, ?_, ?_, ?_⟩ <;> first | exact hs | exact hm | rfl | trivial
  | turnTo a w =>
      simp only [applyCmd, Robot.turnTo, hb]
      simp only [Bool.true_or, if_pos]
      refine ⟨⟨?_, ?_, hRl, hRr⟩, ?_, ?_, ?_, ?_⟩ <;> first | exact hs | exact hm | rfl | trivial
  | turnBy a w =>
      simp only [applyCmd, Robot.turnBy, hb]
      simp only [Bool.true_or, if_pos]
      refine ⟨⟨?_, ?_, hRl, hRr⟩, ?_, ?_, ?_, ?_⟩ <;> first | exact hs | exact hm | rfl | trivial
  | penUp =>
      exact ⟨⟨hs, hm, hRl, hRr⟩, rfl, rfl, rfl, rfl⟩
  | penDown =>
      exact ⟨⟨hs, hm, hRl, hRr⟩, rfl, rfl, rfl, rfl⟩

  | emergencyStop =>
      have hl := release_eq_self r.left_motor hRl
      have hr := release_eq_self r.right_motor hRr
      simp only [applyCmd, Robot.emergencyStop, Robot.stopAllMotors, hl, hr]
      refine ⟨⟨?_, ?_, hRl, hRr⟩, ?_, ?_, ?_, ?_⟩ <;> first | rfl | trivial
  | clearError => exact absurd rfl hc

/-- The latch persists over whole command sequences without `clearError`,
with both channels and both lifetime totals literally unchanged. -/
theorem applyCmds_estop_frozen (ops : FloatOps) (cfg : HardwareConfig) (cs : List Cmd) :
    ∀ r : Robot, Estopped r → (∀ c ∈ cs, c ≠ Cmd.clearError) →
      Estopped (applyCmds ops cfg cs r) ∧
      (applyCmds ops cfg cs r).left_motor = r.left_motor ∧
      (applyCmds ops cfg cs r).right_motor = r.right_motor ∧
      (applyCmds ops cfg cs r).left_steps_total = r.left_steps_total ∧
      (applyCmds ops cfg cs r).right_steps_total = r.right_steps_total := by
  induction cs with
  | nil => exact fun r hE _ => ⟨hE, rfl, rfl, rfl, rfl⟩
  | cons c cs ih =>
      intro r hE hnc
      have hc : c ≠ Cmd.clearError := hnc c (List.mem_cons_self c cs)
      have h1 := applyCmd_estop_frozen ops cfg c r hE hc
      have h2 := ih (applyCmd ops cfg c r) h1.1 (fun d hd => hnc d (List.mem_cons_of_mem c hd))
      exact ⟨h2.1, h2.2.1.trans h1.2.1, h2.2.2.1.trans h1.2.2.1,
        h2.2.2.2.1.trans h1.2.2.2.1, h2.2.2.2.2.trans h1.2.2.2.2⟩

/-- C2: after `emergencyStop()` from any state all coil outputs are low and
the state is ESTOP; under every subsequent sequence of ticks and commands
not containing `clearError` no step fires on either channel (channels and
lifetime totals are unchanged, motion commands are refused) and the state
stays ESTOP; after `clearError()` the state is IDLE and `moveForward(1)` is
accepted (state moves to MOVING). -/
theorem C2_estop_latch (ops : FloatOps) (cfg : HardwareConfig) (r : Robot) (cs : List Cmd)
    (hl : r.left_motor.initialized = true) (hr : r.right_motor.initialized = true)
    (hnc : ∀ c ∈ cs, c ≠ Cmd.clearError) :
    r.emergencyStop.state = RobotState.EMERGENCY_STOP ∧
    r.emergencyStop.movement_active = false ∧
    r.emergencyStop.left_motor.pins = [false, false, false, false] ∧
    r.emergencyStop.right_motor.pins = [false, false, false, false] ∧
    (applyCmds ops cfg cs r.emergencyStop).state = RobotState.EMERGENCY_STOP ∧
    (applyCmds ops cfg cs r.emergencyStop).left_motor = r.emergencyStop.left_motor ∧
    (applyCmds ops cfg cs r.emergencyStop).right_motor = r.emergencyStop.right_motor ∧
    (applyCmds ops cfg cs r.emergencyStop).left_steps_total =
      r.emergencyStop.left_steps_total ∧
    (applyCmds ops cfg cs r.emergencyStop).right_steps_total =
      r.emergencyStop.right_steps_total ∧
    ((applyCmds ops cfg cs r.emergencyStop).moveForward 1).1 = false ∧
    (applyCmds ops cfg cs r.emergencyStop).clearError.state = RobotState.IDLE ∧
    ((applyCmds ops cfg cs r.emergencyStop).clearError.moveForward 1).1 = true ∧
    ((applyCmds ops cfg cs r.emergencyStop).clearError.moveForward 1).2.state =
      RobotState.MOVING := by
  have hE := estopped_emergencyStop r
  have hfrozen := applyCmds_estop_frozen ops cfg cs r.emergencyStop hE hnc
  obtain ⟨⟨hs2, hm2, _, _⟩, hml, hmr, htl, htr⟩ := hfrozen
  have hbusy : (applyCmds ops cfg cs r.emergencyStop).isBusy = true := by
    simp [Robot.isBusy, hs2]
  have hclear : (applyCmds ops cfg cs r.emergencyStop).clearError.state = RobotState.IDLE := by
    simp only [Robot.clearError, if_pos (Or.inr hs2)]
  have hclearBusy : (applyCmds ops cfg cs r.emergencyStop).clearError.isBusy = false := by
    simp [Robot.isBusy, hclear]
  refine ⟨rfl, rfl, ?_, ?_, hs2, hml, hmr, htl, htr, ?_, hclear, ?_, ?_⟩
  · simp only [Robot.emergencyStop, Robot.stopAllMotors]
    simp [StepperDriver.release, StepperDriver.clearPins, hl]
  · simp only [Robot.emergencyStop, Robot.stopAllMotors]
    simp [StepperDriver.release, StepperDriver.clearPins, hr]
  · simp [Robot.moveForward, hbusy]
  · simp [Robot.moveForward, hclearBusy]
  · simp [Robot.moveForward, hclearBusy]

/-- Witness for C2: the initialized robot, stopped; a tick and a rejected
`moveForward(3)` run under the latch; then a clear. -/
theorem C2_estop_latch_witness :
    (Robot.begin defaultHardware 0 Robot.start).emergencyStop.state =
      RobotState.EMERGENCY_STOP ∧
    (applyCmds constOps defaultHardware [Cmd.tick 5000 5, Cmd.moveForward 3]
        (Robot.begin defaultHardware 0 Robot.start).emergencyStop).left_steps_total =
      (Robot.begin defaultHardware 0 Robot.start).emergencyStop.left_steps_total ∧
    (applyCmds constOps defaultHardware [Cmd.tick 5000 5, Cmd.moveForward 3]
        (Robot.begin defaultHardware 0 Robot.start).emergencyStop).clearError.state =
      RobotState.IDLE := by
  have hinit := beginRobot_motors_initialized defaultHardware 0 Robot.start
  have h := C2_estop_latch constOps defaultHardware (Robot.begin defaultHardware 0 Robot.start)
    [Cmd.tick 5000 5, Cmd.moveForward 3] hinit.1 hinit.2 (by decide)
  exact ⟨h.1, h.2.2.2.2.2.2.2.1, h.2.2.2.2.2.2.2.2.2.2.1⟩

/-- Control-flow outcomes of one tick: either the movement block was
skipped (goal bookkeeping untouched), or a goal completed (IDLE, inactive,
and — for a step-mode goal — both counters equal their targets), or the
goal is still running (state MOVING). -/
theorem update_control (ops : FloatOps) (cfg : HardwareConfig) (now_us now_ms : ℕ) (r : Robot) :
    ((r.update ops cfg now_us now_ms).state = r.state ∧
     (r.update ops cfg now_us now_ms).movement_active = r.movement_active ∧
     (r.update ops cfg now_us now_ms).coordinate_movement = r.coordinate_movement ∧
     (r.update ops cfg now_us now_ms).current_left_steps = r.current_left_steps ∧
     (r.update ops cfg now_us now_ms).current_right_steps = r.current_right_steps ∧
     (r.update ops cfg now_us now_ms).target_left_steps = r.target_left_steps ∧
     (r.update ops cfg now_us now_ms).target_right_steps = r.target_right_steps) ∨
    ((r.update ops cfg now_us now_ms).state = RobotState.IDLE ∧
     (r.update ops cfg now_us now_ms).movement_active = false ∧
     (r.update ops cfg now_us now_ms).coordinate_movement = false ∧
     (r.coordinate_movement = false →
       (r.update ops cfg now_us now_ms).current_left_steps =
         (r.update ops cfg now_us now_ms).target_left_steps ∧
       (r.update ops cfg now_us now_ms).current_right_steps =
         (r.update ops cfg now_us now_ms).target_right_steps)) ∨
    ((r.update ops cfg now_us now_ms).state = RobotState.MOVING ∧
     (r.update ops cfg now_us now_ms).coordinate_movement = r.coordinate_movement) := by
  obtain ⟨-, -, -, -, -, -, -, -, -, -, -, eco, -, -, -⟩ :=
    executeMovement_frame now_us { r with pen_servo := r.pen_servo.update now_ms }
  obtain ⟨-, est, -, -, -, -, -, -, -, cco, -, -, -⟩ :=
    executeCoordinateMovement_frame ops cfg now_us { r with pen_servo := r.pen_servo.update now_ms }
  obtain ⟨-, ems, -, -, -, -, -, -, -, -, -, -, -, -, -⟩ :=
    executeMovement_frame now_us { r with pen_servo := r.pen_servo.update now_ms }
  simp only [Robot.update]
  split_ifs with h1 h2 h3 h4
  · -- coordinate goal, completed
    refine Or.inr (Or.inl ⟨?_, ?_, ?_, ?_⟩)
    · simp [updatePositionEstimate_frame]
    · simp [updatePositionEstimate_frame]
    · simp [updatePositionEstimate_frame]
    · intro hcof
      exact absurd h2 (by simp [hcof])
  · -- coordinate goal, still running
    refine Or.inr (Or.inr ⟨?_, ?_⟩)
    · simp only [updatePositionEstimate_frame]
      rw [est]
      exact h1.2
    · simp only [updatePositionEstimate_frame]
      rw [cco]
  · -- step goal, completed
    rcases h4 with ⟨hc2, -⟩ | ⟨-, hmc⟩
    · exfalso
      rw [eco] at hc2
      exact h2 hc2
    · simp only [Robot.isMovementComplete, Bool.and_eq_true, decide_eq_true_eq] at hmc
      refine Or.inr (Or.inl ⟨?_, ?_, ?_, ?_⟩)
      · simp [updatePositionEstimate_frame]
      · simp [updatePositionEstimate_frame]
      · simp [updatePositionEstimate_frame]
      · intro _
        constructor <;> simp [updatePositionEstimate_frame, hmc.1, hmc.2]
  · -- step goal, still running
    refine Or.inr (Or.inr ⟨?_, ?_⟩)
    · simp only [updatePositionEstimate_frame]
      rw [ems]
      exact h1.2
    · simp only [updatePositionEstimate_frame]
      rw [eco]
  · -- movement block skipped
    refine Or.inl ⟨?_, ?_, ?_, ?_, ?_, ?_, ?_⟩ <;> simp [updatePositionEstimate_frame]

/-- Outcome classification of every non-tick command: rejected or pen-only
commands leave the goal bookkeeping unchanged; accepted step-mode commands
enter MOVING with a step goal; accepted coordinate commands (only
`moveTo` / `drawTo`) enter MOVING with a coordinate goal; `emergencyStop`
latches; `clearError` (only) can re-enter IDLE without touching the
counters. -/
theorem applyCmd_cases (ops : FloatOps) (cfg : HardwareConfig) (c : Cmd) (r : Robot) :
    (∃ nu nm, c = Cmd.tick nu nm) ∨
    ((applyCmd ops cfg c r).state = r.state ∧
     (applyCmd ops cfg c r).movement_active = r.movement_active ∧
     (applyCmd ops cfg c r).coordinate_movement = r.coordinate_movement ∧
     (applyCmd ops cfg c r).current_left_steps = r.current_left_steps ∧
     (applyCmd ops cfg c r).current_right_steps = r.current_right_steps ∧
     (applyCmd ops cfg c r).target_left_steps = r.target_left_steps ∧
     (applyCmd ops cfg c r).target_right_steps = r.target_right_steps) ∨
    ((applyCmd ops cfg c r).state = RobotState.MOVING ∧
     (applyCmd ops cfg c r).coordinate_movement = false) ∨
    ((∃ x y v, c = Cmd.moveTo x y v ∨ c = Cmd.drawTo x y v) ∧
     (applyCmd ops cfg c r).state = RobotState.MOVING) ∨
    ((applyCmd ops cfg c r).state = RobotState.EMERGENCY_STOP ∧
     (applyCmd ops cfg c r).movement_active = false ∧
     (applyCmd ops cfg c r).coordinate_movement = r.coordinate_movement ∧
     (applyCmd ops cfg c r).current_left_steps = r.current_left_steps ∧
     (applyCmd ops cfg c r).current_right_steps = r.current_right_steps ∧
     (applyCmd ops cfg c r).target_left_steps = r.target_left_steps ∧
     (applyCmd ops cfg c r).target_right_steps = r.target_right_steps) ∨
    (c = Cmd.clearError ∧
     (applyCmd ops cfg c r).movement_active = false) := by
  cases c with
  | tick nu nm => exact Or.inl ⟨nu, nm, rfl⟩
  | moveForward n =>
      by_cases hg : (r.isBusy || decide (n ≤ 0)) = true
      · refine Or.inr (Or.inl ?_)
        simp only [applyCmd, Robot.moveForward, if_pos hg]
        and_intros <;> first | rfl | trivial
      · refine Or.inr (Or.inr (Or.inl ?_))
        simp only [applyCmd, Robot.moveForward, if_neg hg]
        and_intros <;> first | rfl | trivial
  | moveBackward n =>
      by_cases hg : (r.isBusy || decide (n ≤ 0)) = true
      · refine Or.inr (Or.inl ?_)
        simp only [applyCmd, Robot.moveBackward, if_pos hg]
        and_intros <;> first | rfl | trivial
      · refine Or.inr (Or.inr (Or.inl ?_))
        simp only [applyCmd, Robot.moveBackward, if_neg hg]
        and_intros <;> first | rfl | trivial
  | turnLeft n =>
      by_cases hg : (r.isBusy || decide (n ≤ 0)) = true
      · refine Or.inr (Or.inl ?_)
        simp only [applyCmd, Robot.turnLeft, if_pos hg]
        and_intros <;> first | rfl | trivial
      · refine Or.inr (Or.inr (Or.inl ?_))
        simp only [applyCmd, Robot.turnLeft, if_neg hg]
        and_intros <;> first | rfl | trivial
  | turnRight n =>
      by_cases hg : (r.isBusy || decide (n ≤ 0)) = true
      · refine Or.inr (Or.inl ?_)
        simp only [applyCmd, Robot.turnRight, if_pos hg]
        and_intros <;> first | rfl | trivial
      · refine Or.inr (Or.inr (Or.inl ?_))
        simp only [applyCmd, Robot.turnRight, if_neg hg]
        and_intros <;> first | rfl | trivial
  | moveTo x y v =>
      by_cases hg : (r.isBusy = true ∨ isValidPosition cfg x y = false) ∨ v ≤ 0
      · refine Or.inr (Or.inl ?_)
        and_intros <;> simp [applyCmd, Robot.moveTo, hg]
      · refine Or.inr (Or.inr (Or.inr (Or.inl ⟨⟨x, y, v, Or.inl rfl⟩, ?_⟩)))
        simp [applyCmd, Robot.moveTo, hg]
  | drawTo x y v =>
      by_cases hg : (r.isBusy = true ∨ isValidPosition cfg x y = false) ∨ v ≤ 0
      · refine Or.inr (Or.inl ?_)
        and_intros <;> simp [applyCmd, Robot.drawTo, hg]
      · refine Or.inr (Or.inr (Or.inr (Or.inl ⟨⟨x, y, v, Or.inr rfl⟩, ?_⟩)))
        simp [applyCmd, Robot.drawTo, hg]
  | turnTo a w =>
      by_cases hg : (r.isBusy || decide (w ≤ 0)) = true
      · refine Or.inr (Or.inl ?_)
        simp only [applyCmd, Robot.turnTo, Robot.turnBy, if_pos hg]
        and_intros <;> first | rfl | trivial
      · refine Or.inr (Or.inr (Or.inl ?_))
        simp only [applyCmd, Robot.turnTo, Robot.turnBy, if_neg hg]
        and_intros <;> first | rfl | trivial
  | turnBy a w =>
      by_cases hg : (r.isBusy || decide (w ≤ 0)) = true
      · refine Or.inr (Or.inl ?_)
        simp only [applyCmd, Robot.turnBy, if_pos hg]
        and_intros <;> first | rfl | trivial
      · refine Or.inr (Or.inr (Or.inl ?_))
        simp only [applyCmd, Robot.turnBy, if_neg hg]
        and_intros <;> first | rfl | trivial
  | penUp =>
      refine Or.inr (Or.inl ?_)
      and_intros <;> rfl
  | penDown =>
      refine Or.inr (Or.inl ?_)
      and_intros <;> rfl
  | emergencyStop =>
      refine Or.inr (Or.inr (Or.inr (Or.inr (Or.inl ?_))))
      and_intros <;> rfl
  | clearError =>
      by_cases hg : r.state = RobotState.ERROR ∨ r.state = RobotState.EMERGENCY_STOP
      · refine Or.inr (Or.inr (Or.inr (Or.inr (Or.inr ⟨rfl, ?_⟩))))
        simp [applyCmd, Robot.clearError, if_pos hg, Robot.stopAllMotors]
      · refine Or.inr (Or.inl ?_)
        simp only [applyCmd, Robot.clearError, if_neg hg]
        and_intros <;> first | rfl | trivial

/-- Every command and tick preserves `IdleInv`. -/
theorem idleInv_applyCmd (ops : FloatOps) (cfg : HardwareConfig) (c : Cmd) (r : Robot)
    (h : IdleInv r) : IdleInv (applyCmd ops cfg c r) := by
  rcases applyCmd_cases ops cfg c r with ⟨nu, nm, rfl⟩ | hO | hO | hO | hO | hO
  · intro hs
    simp only [applyCmd] at hs ⊢
    rcases update_control ops cfg nu nm r with ⟨e1, e2, -⟩ | ⟨-, e2, -⟩ | ⟨e1, -⟩
    · rw [e2]
      rw [e1] at hs
      exact h hs
    · exact e2
    · rw [e1] at hs
      exact RobotState.noConfusion hs
  · intro hs
    rw [hO.2.1]
    rw [hO.1] at hs
    exact h hs
  · intro hs
    rw [hO.1] at hs
    exact RobotState.noConfusion hs
  · intro hs
    rw [hO.2] at hs
    exact RobotState.noConfusion hs
  · intro hs
    rw [hO.1] at hs
    exact RobotState.noConfusion hs
  · intro _
    exact hO.2

/-- Every step-mode command (no coordinate targets, no `clearError`) and
every tick preserves `StepInv`. -/
theorem stepInv_applyCmd (ops : FloatOps) (cfg : HardwareConfig) (c : Cmd) (r : Robot)
    (h : StepInv r) (hc : stepModeNoClear c) : StepInv (applyCmd ops cfg c r) := by
  obtain ⟨hco, hidle⟩ := h
  rcases applyCmd_cases ops cfg c r with ⟨nu, nm, rfl⟩ | hO | hO | hO | hO | hO
  · simp only [applyCmd]
    rcases update_control ops cfg nu nm r with ⟨e1, e2, e3, e4, e5, e6, e7⟩ |
      ⟨e1, e2, e3, e4⟩ | ⟨e1, e2⟩
    · refine ⟨e3.trans hco, fun hs => ?_⟩
      rw [e1] at hs
      obtain ⟨q1, q2, q3⟩ := hidle hs
      exact ⟨e4.trans (q1.trans e6.symm), e5.trans (q2.trans e7.symm), e2.trans q3⟩
    · exact ⟨e3, fun _ => ⟨(e4 hco).1, (e4 hco).2, e2⟩⟩
    · refine ⟨e2.trans hco, fun hs => ?_⟩
      rw [e1] at hs
      exact RobotState.noConfusion hs
  · refine ⟨hO.2.2.1.trans hco, fun hs => ?_⟩
    rw [hO.1] at hs
    obtain ⟨q1, q2, q3⟩ := hidle hs
    exact ⟨hO.2.2.2.1.trans (q1.trans hO.2.2.2.2.2.1.symm),
      hO.2.2.2.2.1.trans (q2.trans hO.2.2.2.2.2.2.symm), hO.2.1.trans q3⟩
  · refine ⟨hO.2, fun hs => ?_⟩
    rw [hO.1] at hs
    exact RobotState.noConfusion hs
  · obtain ⟨⟨x, y, v, hxy⟩, -⟩ := hO
    rcases hxy with rfl | rfl <;> exact absurd hc (by simp [stepModeNoClear])
  · refine ⟨hO.2.2.1.trans hco, fun hs => ?_⟩
    rw [hO.1] at hs
    exact RobotState.noConfusion hs
  · exact absurd hc (by simp [hO.1, stepModeNoClear])

/-- Both invariants hold along every (respectively, every restricted)
command trace from the initialized robot. -/
theorem invariants_applyCmds (ops : FloatOps) (cfg : HardwareConfig) (cs : List Cmd) :
    ∀ r : Robot, IdleInv r → IdleInv (applyCmds ops cfg cs r) := by
  induction cs with
  | nil => exact fun r h => h
  | cons c cs ih =>
      intro r h
      exact ih (applyCmd ops cfg c r) (idleInv_applyCmd ops cfg c r h)

/-- `StepInv` holds along every restricted command trace. -/
theorem stepInv_applyCmds (ops : FloatOps) (cfg : HardwareConfig) (cs : List Cmd) :
    ∀ r : Robot, StepInv r → (∀ c ∈ cs, stepModeNoClear c) →
      StepInv (applyCmds ops cfg cs r) := by
  induction cs with
  | nil => exact fun r h _ => h
  | cons c cs ih =>
      intro r h hcs
      exact ih (applyCmd ops cfg c r)
        (stepInv_applyCmd ops cfg c r h (hcs c (List.mem_cons_self c cs)))
        (fun d hd => hcs d (List.mem_cons_of_mem c hd))

/-- C4 amended: in every reachable IDLE state of the coordinator the motion
goal is inactive (`movement_active = false`); and along traces that contain
no coordinate-target command and no `clearError`, IDLE additionally implies
`done == target` on both channels.  (The unrestricted `done == target` part
of the original claim is refuted by `C4_counterexample`.) -/
theorem C4_idle_invariant (ops : FloatOps) (cfg : HardwareConfig) (now0 : ℕ) (cs : List Cmd)
    (hIdle : (applyCmds ops cfg cs (Robot.begin cfg now0 Robot.start)).state =
      RobotState.IDLE) :
    (applyCmds ops cfg cs (Robot.begin cfg now0 Robot.start)).movement_active = false ∧
    ((∀ c ∈ cs, stepModeNoClear c) →
      (applyCmds ops cfg cs (Robot.begin cfg now0 Robot.start)).current_left_steps =
        (applyCmds ops cfg cs (Robot.begin cfg now0 Robot.start)).target_left_steps ∧
      (applyCmds ops cfg cs (Robot.begin cfg now0 Robot.start)).current_right_steps =
        (applyCmds ops cfg cs (Robot.begin cfg now0 Robot.start)).target_right_steps) := by
  have h0 : IdleInv (Robot.begin cfg now0 Robot.start) := fun _ => rfl
  have hs0 : StepInv (Robot.begin cfg now0 Robot.start) :=
    ⟨rfl, fun _ => ⟨rfl, rfl, rfl⟩⟩
  constructor
  · exact invariants_applyCmds ops cfg cs (Robot.begin cfg now0 Robot.start) h0 hIdle
  · intro hres
    exact ((stepInv_applyCmds ops cfg cs (Robot.begin cfg now0 Robot.start) hs0 hres).2
      hIdle).imp id (fun q => q.1)

/-- Witness for C4's amended claim: a pen command from the initialized IDLE
robot keeps the goal inactive and the counters equal to their targets. -/
theorem C4_idle_invariant_witness :
    (applyCmds constOps defaultHardware [Cmd.penUp]
        (Robot.begin defaultHardware 0 Robot.start)).movement_active = false ∧
    (applyCmds constOps defaultHardware [Cmd.penUp]
        (Robot.begin defaultHardware 0 Robot.start)).current_left_steps =
      (applyCmds constOps defaultHardware [Cmd.penUp]
        (Robot.begin defaultHardware 0 Robot.start)).target_left_steps := by
  have h := C4_idle_invariant constOps defaultHardware 0 [Cmd.penUp] rfl
  refine ⟨h.1, (h.2 ?_).1⟩
  intro c hc
  rcases List.mem_cons.mp hc with rfl | hc2
  · trivial
  · exact absurd hc2 (List.not_mem_nil c)

/-- C4 counterexample: `moveForward(1); emergencyStop(); clearError()` from
the initialized robot reaches IDLE with the left channel's done counter (0)
different from its target (1): `clearError` does not reset the per-goal
counters, so IDLE does not imply `done == target`. -/
theorem C4_counterexample :
    (applyCmds constOps defaultHardware [Cmd.moveForward 1, Cmd.emergencyStop, Cmd.clearError]
        (Robot.begin defaultHardware 0 Robot.start)).state = RobotState.IDLE ∧
    (applyCmds constOps defaultHardware [Cmd.moveForward 1, Cmd.emergencyStop, Cmd.clearError]
        (Robot.begin defaultHardware 0 Robot.start)).current_left_steps = 0 ∧
    (applyCmds constOps defaultHardware [Cmd.moveForward 1, Cmd.emergencyStop, Cmd.clearError]
        (Robot.begin defaultHardware 0 Robot.start)).target_left_steps = 1 ∧
    ¬((applyCmds constOps defaultHardware [Cmd.moveForward 1, Cmd.emergencyStop, Cmd.clearError]
        (Robot.begin defaultHardware 0 Robot.start)).current_left_steps =
      (applyCmds constOps defaultHardware [Cmd.moveForward 1, Cmd.emergencyStop, Cmd.clearError]
        (Robot.begin defaultHardware 0 Robot.start)).target_left_steps) := by
  refine ⟨rfl, rfl, rfl, ?_⟩
  intro hcontra
  simp only [show (applyCmds constOps defaultHardware
      [Cmd.moveForward 1, Cmd.emergencyStop, Cmd.clearError]
      (Robot.begin defaultHardware 0 Robot.start)).current_left_steps = 0 from rfl,
    show (applyCmds constOps defaultHardware
      [Cmd.moveForward 1, Cmd.emergencyStop, Cmd.clearError]
      (Robot.begin defaultHardware 0 Robot.start)).target_left_steps = 1 from rfl] at hcontra
  exact absurd hcontra (by norm_num)

/-- Stepping toward new sub-targets does not move the recorded pose or the
coordinate target, so the distance test is unchanged. -/
theorem isAtTargetPosition_retarget (ops : FloatOps) (now_us : ℕ) (r : Robot) (a b : ℤ) :
    Robot.isAtTargetPosition ops (Robot.executeMovement now_us
      { r with target_left_steps := a, target_right_steps := b,
               current_left_steps := 0, current_right_steps := 0 }) =
    Robot.isAtTargetPosition ops r := by
  obtain ⟨-, -, -, e4, e5, -, -, e8, e9, -, -, -, -⟩ := executeMovement_retarget_frame now_us r a b
  simp only [Robot.isAtTargetPosition, e4, e5, e8, e9]

/-- C3: with an active coordinate goal (state MOVING), a tick behaves
exactly as the spec's coordinate algorithm: complete within 0.5 mm (back
to IDLE), otherwise rotate via `IK(0, dθ)` when `|dθ| > 0.087` rad, else
creep straight by `IK(min(d, 1 mm), 0)`, stepping the channels toward the
planted sub-targets. -/
theorem C3_coordinate_tick (ops : FloatOps) (cfg : HardwareConfig) (now_us now_ms : ℕ)
    (r : Robot) (hact : r.movement_active = true) (hst : r.state = RobotState.MOVING)
    (hco : r.coordinate_movement = true) :
    r.update ops cfg now_us now_ms = coordinateTickSpec ops cfg now_us now_ms r := by
  simp only [Robot.update, coordinateTickSpec, Robot.executeCoordinateMovement]
  rw [if_pos (show r.movement_active = true ∧ r.state = RobotState.MOVING from ⟨hact, hst⟩)]
  rw [if_pos hco]
  split_ifs with hd h1 h2 h3 h4
  · rfl
  · exfalso
    apply h1
    refine Or.inl ⟨hco, ?_⟩
    simp only [Robot.isAtTargetPosition, decide_eq_true_eq]
    exact hd
  · exfalso
    rcases h3 with ⟨-, hat⟩ | ⟨hnc, -⟩
    · rw [isAtTargetPosition_retarget ops now_us
        { r with pen_servo := r.pen_servo.update now_ms } _ _] at hat
      simp only [Robot.isAtTargetPosition, decide_eq_true_eq] at hat
      exact hd hat
    · obtain ⟨-, -, -, -, -, -, -, -, -, e10, -, -, -⟩ :=
        executeMovement_retarget_frame now_us { r with pen_servo := r.pen_servo.update now_ms }
          (calculateSteps cfg 0 (normalizeAngle (ops.atan2 (r.target_x - r.current_x)
            (r.target_y - r.current_y) - r.current_angle))).1
          (calculateSteps cfg 0 (normalizeAngle (ops.atan2 (r.target_x - r.current_x)
            (r.target_y - r.current_y) - r.current_angle))).2
      rw [e10] at hnc
      exact hnc hco
  · rfl
  · exfalso
    rcases h4 with ⟨-, hat⟩ | ⟨hnc, -⟩
    · rw [isAtTargetPosition_retarget ops now_us
        { r with pen_servo := r.pen_servo.update now_ms } _ _] at hat
      simp only [Robot.isAtTargetPosition, decide_eq_true_eq] at hat
      exact hd hat
    · obtain ⟨-, -, -, -, -, -, -, -, -, e10, -, -, -⟩ :=
        executeMovement_retarget_frame now_us { r with pen_servo := r.pen_servo.update now_ms }
          (calculateSteps cfg (min (ops.sqrt ((r.target_x - r.current_x) *
            (r.target_x - r.current_x) + (r.target_y - r.current_y) *
            (r.target_y - r.current_y))) 1) 0).1
          (calculateSteps cfg (min (ops.sqrt ((r.target_x - r.current_x) *
            (r.target_x - r.current_x) + (r.target_y - r.current_y) *
            (r.target_y - r.current_y))) 1) 0).2
      rw [e10] at hnc
      exact hnc hco
  · rfl

/-- Witness for C3: a concrete robot in an active coordinate goal; the tick
equals the spec's coordinate algorithm on it. -/
theorem C3_coordinate_tick_witness :
    Robot.update constOps defaultHardware 0 0
        { Robot.start with state := RobotState.MOVING, movement_active := true, coordinate_movement := true, target_x := 10 } =
      coordinateTickSpec constOps defaultHardware 0 0
        { Robot.start with state := RobotState.MOVING, movement_active := true, coordinate_movement := true, target_x := 10 } :=
  C3_coordinate_tick constOps defaultHardware 0 0 _ rfl rfl rfl
